import Mathlib

/-!
# Local development cluster provisioner (`provisioners/localdev.go`)

A shallow embedding of the health check, the stale-container reaper, the
convergence wait and the top-level `EnsureCluster` of the `sanic` local
development provisioner, followed by theorems about them.

Conventions of the embedding.

* Go `error` values are their message (`String`); a function returning `error`
  returns `Outcome Unit`, where `Outcome.ok ()` is `nil`.
* A Go run-time panic (index out of range, nil dereference) is `Outcome.panic`.
* The container runtime, the cluster API, `kind`, `kubectl`, the clock and the
  Go runtime are collaborators: they are the fields of `Env W`, functions over
  a world state `W` that the code threads through its calls.
* Every collaborator call is recorded, in order, in the `log` of the state
  `St W`; the log is ghost state used to state which calls were made.
* `time.Duration` and clock readings are integers, in nanoseconds. The source
  subtracts durations that are far from the 64-bit range, so no wrap-around is
  modelled.
-/

namespace Sanic

/-! ## Data model -/

/-- Result of a Go call: a value, an `error`, or a run-time panic. -/
inductive Outcome (α : Type) where
  | ok (a : α)
  | err (e : String)
  | panic (msg : String)
  deriving DecidableEq, Repr

/-- A `corev1.NodeCondition`, reduced to the two fields the code reads
(`Type` is written `Typ`). -/
structure NodeCondition where
  Typ : String
  Status : String
  deriving DecidableEq, Repr

/-- A `corev1.NodeStatus`. -/
structure NodeStatus where
  Conditions : List NodeCondition
  deriving DecidableEq, Repr

/-- A `corev1.Node`. -/
structure Node where
  Name : String
  Status : NodeStatus
  deriving DecidableEq, Repr

/-- A `types.Container` of the Docker API, reduced to the fields the code reads. -/
structure Container where
  ID : String
  Names : List String
  State : String
  deriving DecidableEq, Repr

/-- A `rest.Config`. -/
structure RestConfig where
  Host : String
  deriving DecidableEq, Repr

/-- A `kubernetes.Clientset`, identified by the configuration it was built from. -/
structure Clientset where
  config : RestConfig
  deriving DecidableEq, Repr

/-- A `kindconfig.Node`. -/
structure KindNode where
  Role : String
  deriving DecidableEq, Repr

/-- A `kindconfig.Cluster`: its node list, and the remaining fields as set by
the scheme defaults. -/
structure KindCluster where
  Nodes : List KindNode
  Rest : String
  deriving DecidableEq, Repr

/-- An `exec.Cmd` as `startIngressController` sets it up. -/
structure Cmd where
  Path : String
  Args : List String
  Env : List String
  Stdin : String
  deriving DecidableEq, Repr

/-- Result of a node listing: the listed nodes or the listing error. -/
inductive Listing where
  | nodes (items : List Node)
  | failed (e : String)
  deriving DecidableEq, Repr

/-- One collaborator call, as recorded in the log. -/
inductive Event where
  | dockerNewClient (version : String)
  | containerList (all : Bool) (label : String)
  | containerRemove (id : String) (force : Bool)
  | buildConfigFromFlags (masterUrl kubeconfigPath : String)
  | newForConfig (cfg : Option RestConfig)
  | nodesList (kube : Clientset) (result : Listing)
  | print (s : String)
  | printErr (s : String)
  | kindCreate (cfg : KindCluster) (retain : Bool) (waitForReady : Int)
  | getKubectlExecutablePath
  | cmdStart (cmd : Cmd)
  | cmdWait (cmd : Cmd)
  | timeNow (t : Int)
  | timeSleep (d : Int)
  deriving DecidableEq, Repr

/-- The collaborators of the provisioner over a world state `W`. A Go `error`
result is `Option String` (`none` is `nil`). -/
structure Env (W : Type) where
  /-- Call `client.NewClientWithOpts(client.FromEnv, client.WithVersion(v))`. -/
  newClientWithOpts : String → W → Option String × W
  /-- Call `dockerCli.ContainerList` with the `All` flag and the label filter. -/
  containerList : Bool → String → W → Except String (List Container) × W
  /-- Call `dockerCli.ContainerRemove` with the container id and the `Force` flag. -/
  containerRemove : String → Bool → W → Option String × W
  /-- Path returned by `kindContext.KubeConfigPath()`. -/
  kubeConfigPath : String
  /-- Call `kubeclientcmd.BuildConfigFromFlags(masterUrl, path)`: the Go pair
  `(*rest.Config, error)`, the pointer being `none` when nil. -/
  buildConfigFromFlags : String → String → W → (Option RestConfig × Option String) × W
  /-- Call `kubernetes.NewForConfig(cfg)` on a possibly nil `*rest.Config`. -/
  newForConfig : Option RestConfig → W → Outcome Clientset × W
  /-- Call `kube.CoreV1().Nodes().List(metav1.ListOptions{})`. -/
  nodesList : Clientset → W → Listing × W
  /-- Apply `encoding.Scheme.Default(&cfg)`. -/
  schemeDefault : KindCluster → KindCluster
  /-- Call `kindContext.Create(cfg, create.Retain(r), create.WaitForReady(d))`. -/
  kindCreate : KindCluster → Bool → Int → W → Option String × W
  /-- Call `kubectl.GetKubectlExecutablePath()`. -/
  getKubectlExecutablePath : W → Except String String × W
  /-- Value of `os.Environ()`. -/
  environ : W → List String
  /-- Call `cmd.Start()`. -/
  cmdStart : Cmd → W → Option String × W
  /-- Call `cmd.Wait()`: its error and what the command wrote to its standard error. -/
  cmdWait : Cmd → W → (Option String × String) × W
  /-- Reading of `time.Now()`, in nanoseconds. -/
  now : W → Int
  /-- Call `time.Sleep(d)`. -/
  sleep : Int → W → W

/-- World state together with the log of the collaborator calls made so far. -/
structure St (W : Type) where
  w : W
  log : List Event
  deriving DecidableEq

/-! ## `kubeNodeReady` -/

/-- The constant `corev1.NodeReady`. -/
def NodeReady : String := "Ready"

/-- The constant `corev1.ConditionTrue`. -/
def ConditionTrue : String := "True"

/-- Source `kubeNodeReady`: `ready` starts false and every condition of type
`NodeReady` overwrites it with whether its status is `ConditionTrue`. -/
def kubeNodeReady (node : Node) : Bool :=
  node.Status.Conditions.foldl
    (fun ready condition =>
      if condition.Typ = NodeReady then decide (condition.Status = ConditionTrue) else ready)
    false

/-! ## `checkCluster` -/

/-- The label filter of both container listings. -/
def kindClusterLabel : String := "io.k8s.sigs.kind.cluster"

/-- The map literal `requiredContainersRunning`, as its entries. -/
def requiredContainersRunning : List (String × Bool) :=
  [("/sanic-worker", false), ("/sanic-worker2", false), ("/sanic-worker3", false),
   ("/sanic-control-plane", false)]

/-- Map assignment `m[k] = v` for a key already in the map. -/
def mapSet (m : List (String × Bool)) (k : String) (v : Bool) : List (String × Bool) :=
  m.map (fun kv => if kv.1 = k then (kv.1, v) else kv)

/-- First loop of `checkCluster`: for every listed container whose first name
`container.Names[0]` is a key of the map, store whether its state is
`"running"`. `none` is the index-out-of-range panic of `Names[0]` on a
container without a name. The slice `nodeContainerIDs` the source also fills
is never read and is left out. -/
def markRunning : List Container → List (String × Bool) → Option (List (String × Bool))
  | [], m => some m
  | container :: rest, m =>
    match container.Names with
    | [] => none
    | name :: _ =>
      if (m.lookup name).isSome then
        markRunning rest (mapSet m name (decide (container.State = "running")))
      else
        markRunning rest m

/-- Second loop of `checkCluster`: range over the map and stop at the first
entry whose status is false. Go leaves the iteration order of a map
unspecified; `order` is the order in which the run time yields the keys. -/
def firstNotRunning (order : List String) (m : List (String × Bool)) : Option String :=
  order.find? (fun containerName => m.lookup containerName != some true)

/-- Source `checkCluster(dockerCli, kube)`. -/
def checkCluster {W : Type} (env : Env W) (order : List String) (kube : Clientset)
    (st : St W) : Outcome Unit × St W :=
  let r := env.containerList true kindClusterLabel st.w
  let st1 : St W := ⟨r.2, st.log ++ [Event.containerList true kindClusterLabel]⟩
  match r.1 with
  | .error e => (.err e, st1)
  | .ok clusterContainers =>
    match markRunning clusterContainers requiredContainersRunning with
    | none => (.panic "index out of range [0] with length 0", st1)
    | some m =>
      match firstNotRunning order m with
      | some containerName =>
        (.err ("at least one required container isn't running: " ++ containerName), st1)
      | none =>
        let rn := env.nodesList kube st1.w
        let st2 : St W := ⟨rn.2, st1.log ++ [Event.nodesList kube rn.1]⟩
        match rn.1 with
        | .failed e => (.err ("could not list kubernetes nodes: " ++ e), st2)
        | .nodes items =>
          if items.length ≠ m.length then
            (.err ("some nodes have been removed/crashed. only " ++ toString items.length
              ++ "/" ++ toString m.length ++ " were running"), st2)
          else if items.any (fun node => !kubeNodeReady node) then
            (.err ("a node was not ready.\nTo note: after deploying initially, " ++
              "wait at least 30 seconds before deploying again to let the cluster start fully"),
              st2)
          else
            (.ok (), st2)

/-! ## `deleteClusterContainers` -/

/-- Removal loop of `deleteClusterContainers`: force-remove each listed
container in turn, stopping at the first removal error. -/
def removeContainers {W : Type} (env : Env W) : List Container → St W → Outcome Unit × St W
  | [], st => (.ok (), st)
  | container :: rest, st =>
    let r := env.containerRemove container.ID true st.w
    let st1 : St W := ⟨r.2, st.log ++ [Event.containerRemove container.ID true]⟩
    match r.1 with
    | some e => (.err e, st1)
    | none => removeContainers env rest st1

/-- Source `deleteClusterContainers(dockerCli)`. -/
def deleteClusterContainers {W : Type} (env : Env W) (st : St W) : Outcome Unit × St W :=
  let r := env.containerList true kindClusterLabel st.w
  let st1 : St W := ⟨r.2, st.log ++ [Event.containerList true kindClusterLabel]⟩
  match r.1 with
  | .error e => (.err e, st1)
  | .ok clusterContainers => removeContainers env clusterContainers st1

/-! ## `waitNodesReady` -/

/-- The duration `time.Millisecond * 300`, in nanoseconds. -/
def pollInterval : Int := 300 * 1000000

/-- What one pass through the body of a `for` loop does: return, or go round again. -/
inductive LoopStep (W : Type) where
  | done (res : Outcome Unit) (st : St W)
  | again (st : St W)

/-- Inner loop of `waitNodesReady`: `allNodesReady` starts true and every node
that is not ready sets it to false. -/
def allNodesReady (items : List Node) : Bool :=
  items.foldl (fun allReady node => if !kubeNodeReady node then false else allReady) true

/-- Lines 130-137 of `waitNodesReady`: read the clock, return `lastErr` once
the elapsed time exceeds the timeout, otherwise sleep for the polling interval
or for what is left of the timeout and go round again. -/
def waitDeadline {W : Type} (env : Env W) (timeout startTime : Int) (lastErr : String)
    (st : St W) : LoopStep W :=
  let now := env.now st.w
  let st1 : St W := ⟨st.w, st.log ++ [Event.timeNow now]⟩
  let elapsedTime := now - startTime
  if elapsedTime > timeout then
    .done (.err lastErr) st1
  else if timeout - elapsedTime ≥ pollInterval then
    .again ⟨env.sleep pollInterval st1.w, st1.log ++ [Event.timeSleep pollInterval]⟩
  else
    .again ⟨env.sleep (timeout - elapsedTime) st1.w,
      st1.log ++ [Event.timeSleep (timeout - elapsedTime)]⟩

/-- Body of the `for` loop of `waitNodesReady` (lines 117-137). -/
def waitNodesReadyBody {W : Type} (env : Env W) (kube : Clientset) (timeout startTime : Int)
    (st : St W) : LoopStep W :=
  let r := env.nodesList kube st.w
  let st1 : St W := ⟨r.2, st.log ++ [Event.nodesList kube r.1]⟩
  match r.1 with
  | .nodes items =>
    if allNodesReady items then .done (.ok ()) st1
    else waitDeadline env timeout startTime "some nodes were not ready" st1
  | .failed e => waitDeadline env timeout startTime e st1

/-- The `for` loop of `waitNodesReady`, run for at most `fuel` passes; `none`
when the loop is still running after `fuel` passes. -/
def waitNodesReadyLoop {W : Type} (env : Env W) (kube : Clientset) (timeout startTime : Int) :
    Nat → St W → Option (Outcome Unit × St W)
  | 0, _ => none
  | fuel + 1, st =>
    match waitNodesReadyBody env kube timeout startTime st with
    | .done res st1 => some (res, st1)
    | .again st1 => waitNodesReadyLoop env kube timeout startTime fuel st1

/-- Source `waitNodesReady(kube, timeout)`, its loop run for at most `fuel` passes. -/
def waitNodesReady {W : Type} (env : Env W) (kube : Clientset) (timeout : Int) (fuel : Nat)
    (st : St W) : Option (Outcome Unit × St W) :=
  let startTime := env.now st.w
  waitNodesReadyLoop env kube timeout startTime fuel
    ⟨st.w, st.log ++ [Event.timeNow startTime]⟩

/-! ## `startIngressController` -/

/-- The lines of the constant `traefikIngressYaml`. -/
def traefikIngressYamlLines : List String :=
  ["",
   "---",
   "kind: ClusterRole",
   "apiVersion: rbac.authorization.k8s.io/v1beta1",
   "metadata:",
   "  name: traefik-ingress-controller",
   "rules:",
   "  - apiGroups:",
   "      - \"\"",
   "    resources:",
   "      - services",
   "      - endpoints",
   "      - secrets",
   "    verbs:",
   "      - get",
   "      - list",
   "      - watch",
   "  - apiGroups:",
   "      - extensions",
   "    resources:",
   "      - ingresses",
   "    verbs:",
   "      - get",
   "      - list",
   "      - watch",
   "",
   "---",
   "kind: ClusterRoleBinding",
   "apiVersion: rbac.authorization.k8s.io/v1beta1",
   "metadata:",
   "  name: traefik-ingress-controller",
   "roleRef:",
   "  apiGroup: rbac.authorization.k8s.io",
   "  kind: ClusterRole",
   "  name: traefik-ingress-controller",
   "subjects:",
   "- kind: ServiceAccount",
   "  name: traefik-ingress-controller",
   "  namespace: kube-system",
   "",
   "---",
   "apiVersion: v1",
   "kind: ServiceAccount",
   "metadata:",
   "  name: traefik-ingress-controller",
   "  namespace: kube-system",
   "",
   "---",
   "kind: Deployment",
   "apiVersion: extensions/v1beta1",
   "metadata:",
   "  name: traefik-ingress-controller",
   "  namespace: kube-system",
   "  labels:",
   "    k8s-app: traefik-ingress-lb",
   "spec:",
   "  replicas: 1",
   "  selector:",
   "    matchLabels:",
   "      k8s-app: traefik-ingress-lb",
   "  template:",
   "    metadata:",
   "      labels:",
   "        k8s-app: traefik-ingress-lb",
   "        name: traefik-ingress-lb",
   "    spec:",
   "      serviceAccountName: traefik-ingress-controller",
   "      terminationGracePeriodSeconds: 60",
   "      hostNetwork: true",
   "      containers:",
   "      - image: traefik",
   "        name: traefik-ingress-lb",
   "        ports:",
   "        - name: http",
   "          containerPort: 80",
   "        - name: admin",
   "          containerPort: 8080",
   "        args:",
   "        - --api",
   "        - --kubernetes",
   "        - --logLevel=INFO",
   ""]

/-- The constant `traefikIngressYaml`. -/
def traefikIngressYaml : String := String.intercalate "\n" traefikIngressYamlLines

/-- Source `startIngressController`: run `kubectl apply -f -` with `KUBECONFIG`
set and the manifest on standard input. -/
def startIngressController {W : Type} (env : Env W) (st : St W) : Outcome Unit × St W :=
  let r := env.getKubectlExecutablePath st.w
  let st1 : St W := ⟨r.2, st.log ++ [Event.getKubectlExecutablePath]⟩
  match r.1 with
  | .error e => (.err e, st1)
  | .ok kubeExecPath =>
    let cmd : Cmd :=
      { Path := kubeExecPath
        Args := ["apply", "-f", "-"]
        Env := env.environ st1.w ++ ["KUBECONFIG=" ++ env.kubeConfigPath]
        Stdin := traefikIngressYaml }
    let rs := env.cmdStart cmd st1.w
    let st2 : St W := ⟨rs.2, st1.log ++ [Event.cmdStart cmd]⟩
    match rs.1 with
    | some e => (.err e, st2)
    | none =>
      let rw := env.cmdWait cmd st2.w
      let st3 : St W := ⟨rw.2, st2.log ++ [Event.cmdWait cmd]⟩
      match rw.1.1 with
      | some e => (.err e, ⟨st3.w, st3.log ++ [Event.printErr rw.1.2]⟩)
      | none => (.ok (), st3)

/-! ## `EnsureCluster` -/

/-- The node list `EnsureCluster` assigns to `cfg.Nodes`. -/
def clusterNodes : List KindNode :=
  [⟨"control-plane"⟩, ⟨"worker"⟩, ⟨"worker"⟩, ⟨"worker"⟩]

/-- The duration `time.Second * 90`, in nanoseconds. -/
def convergeTimeout : Int := 90 * 1000000000

/-- Lines 252-264 of `EnsureCluster`: load the kind configuration, build a
client from it and check the cluster. Returns the loaded `kubeConfig` pointer
and `clusterError` (`Outcome.ok ()` when nil). -/
def inspectCluster {W : Type} (env : Env W) (order : List String) (st : St W) :
    Option RestConfig × Outcome Unit × St W :=
  let rc := env.buildConfigFromFlags "" env.kubeConfigPath st.w
  let st1 : St W := ⟨rc.2, st.log ++ [Event.buildConfigFromFlags "" env.kubeConfigPath]⟩
  let kubeConfig := rc.1.1
  match rc.1.2 with
  | some _ => (kubeConfig, .err "kind config did not exist, cluster has not been initialized", st1)
  | none =>
    let rk := env.newForConfig kubeConfig st1.w
    let st2 : St W := ⟨rk.2, st1.log ++ [Event.newForConfig kubeConfig]⟩
    match rk.1 with
    | .panic msg => (kubeConfig, .panic msg, st2)
    | .err e =>
      (kubeConfig,
        .err ("could not connect to kubernetes in kind, it is likely not running: " ++ e), st2)
    | .ok kube =>
      let rch := checkCluster env order kube st2
      (kubeConfig, rch.1, rch.2)

/-- The two messages printed at lines 269-270 of `EnsureCluster`. -/
def creatingMessages (clusterError : String) : List Event :=
  [Event.print ("Creating a new cluster, old one cannot be used: " ++ clusterError ++ "\n"),
   Event.print ("This takes between 1 and 10 minutes, depending on your internet " ++
     "connection speed.\n")]

/-- Lines 271-286 of `EnsureCluster`: the scheme defaults applied to an empty
`kindconfig.Cluster`, then `Nodes` overwritten with `clusterNodes`. -/
def kindConfig {W : Type} (env : Env W) : KindCluster :=
  { env.schemeDefault ⟨[], ""⟩ with Nodes := clusterNodes }

/-- Lines 269-311 of `EnsureCluster`: the recreation path taken when
`clusterError` is not nil. `kubeConfig` is the pointer loaded at line 252. -/
def recreateCluster {W : Type} (env : Env W) (fuel : Nat) (kubeConfig : Option RestConfig)
    (clusterError : String) (st : St W) : Option (Outcome Unit × St W) :=
  let st1 : St W := ⟨st.w, st.log ++ creatingMessages clusterError⟩
  let cfg : KindCluster := kindConfig env
  match deleteClusterContainers env st1 with
  | (.panic msg, st2) => some (.panic msg, st2)
  | (.err e, st2) =>
    some (.err ("could not delete existing containers to run cluster setup: " ++ e), st2)
  | (.ok (), st2) =>
    let rcr := env.kindCreate cfg false 0 st2.w
    let st3 : St W := ⟨rcr.2, st2.log ++ [Event.kindCreate cfg false 0]⟩
    match rcr.1 with
    | some e => some (.err e, st3)
    | none =>
      match startIngressController env st3 with
      | (.panic msg, st4) => some (.panic msg, st4)
      | (.err e, st4) => some (.err ("could not start the ingress controller: " ++ e), st4)
      | (.ok (), st4) =>
        let rk := env.newForConfig kubeConfig st4.w
        let st5 : St W := ⟨rk.2, st4.log ++ [Event.newForConfig kubeConfig]⟩
        match rk.1 with
        | .panic msg => some (.panic msg, st5)
        | .err e =>
          some (.err ("could not wait for nodes to come up after initialization: " ++ e), st5)
        | .ok kube =>
          let st6 : St W := ⟨st5.w, st5.log ++
            [Event.print ("Nodes have been provisioned by kind, waiting for them to become " ++
              "ready. This will take up to a minute.\n")]⟩
          match waitNodesReady env kube convergeTimeout fuel st6 with
          | none => none
          | some (.ok (), st7) => some (.ok (), ⟨st7.w, st7.log ++ [Event.print "Done!\n"]⟩)
          | some (res, st7) => some (res, st7)

/-- Source `ProvisionerLocalDev.EnsureCluster`; `fuel` bounds the passes of the
convergence loop and `none` means that loop is still running. -/
def EnsureCluster {W : Type} (env : Env W) (order : List String) (fuel : Nat) (st : St W) :
    Option (Outcome Unit × St W) :=
  let rd := env.newClientWithOpts "1.24" st.w
  let st1 : St W := ⟨rd.2, st.log ++ [Event.dockerNewClient "1.24"]⟩
  match rd.1 with
  | some e =>
    some (.err ("could not connect to docker successfully. version 1.12.1 or higher is " ++
      "required.\n, " ++ e), st1)
  | none =>
    match inspectCluster env order st1 with
    | (_, .ok (), st2) => some (.ok (), st2)
    | (_, .panic msg, st2) => some (.panic msg, st2)
    | (kubeConfig, .err clusterError, st2) => recreateCluster env fuel kubeConfig clusterError st2

/-! ## Notions used to state the properties -/

/-- The four required container names. -/
def requiredNames : List String :=
  ["/sanic-control-plane", "/sanic-worker", "/sanic-worker2", "/sanic-worker3"]

/-- The last listed container whose first name is `name`, if there is one. -/
def lastNamed (cs : List Container) (name : String) : Option Container :=
  cs.reverse.find? (fun c => decide (c.Names.head? = some name))

/-- Whether the last listed container whose first name is `name` exists and is
in state "running". -/
def runningLast (cs : List Container) (name : String) : Bool :=
  match lastNamed cs name with
  | some c => decide (c.State = "running")
  | none => false

/-- The error a poll of the convergence wait remembers: the listing error, or
the fixed message when the listing succeeded. -/
def pollError : Listing → String
  | .failed e => e
  | .nodes _ => "some nodes were not ready"

/-- Whether a logged call is a `time.Sleep`. -/
def Event.isSleep : Event → Bool
  | .timeSleep _ => true
  | _ => false

/-- Whether a logged call is a node listing. -/
def Event.isPoll : Event → Bool
  | .nodesList _ _ => true
  | _ => false

/-- Whether a logged call belongs to the network bootstrap (`kubectl`) or to
the convergence wait (clock readings and sleeps). -/
def Event.isBootstrapOrWait : Event → Bool
  | .getKubectlExecutablePath => true
  | .cmdStart _ => true
  | .cmdWait _ => true
  | .timeNow _ => true
  | .timeSleep _ => true
  | _ => false

/-- Whether a logged call changes the cluster: a container removal, a cluster
creation or a `kubectl` run. -/
def Event.isMutation : Event → Bool
  | .containerRemove _ _ => true
  | .kindCreate _ _ _ => true
  | .cmdStart _ => true
  | .cmdWait _ => true
  | _ => false

/-- The state reached when the first `n` passes of the convergence loop all go
round again; `none` when one of them returns. -/
def waitPasses {W : Type} (env : Env W) (kube : Clientset) (timeout startTime : Int) :
    Nat → St W → Option (St W)
  | 0, st => some st
  | n + 1, st =>
    match waitNodesReadyBody env kube timeout startTime st with
    | .done _ _ => none
    | .again st1 => waitPasses env kube timeout startTime n st1

/-! ## Concrete worlds -/

/-- World state of the scripted worlds: the clock and the number of node
listings made so far. -/
structure World where
  clock : Int
  polls : Nat
  deriving DecidableEq, Repr

/-- A scripted world: the labeled containers, the result of each node listing,
the clock time one listing takes, the kind configuration on disk when
`EnsureCluster` starts, and the error of cluster creation. -/
structure Scenario where
  containers : List Container
  listings : Nat → Listing
  pollTime : Int
  config : Option RestConfig
  createError : Option String

/-- Collaborators of a scripted world. Docker, `kubectl` and removals succeed;
sleeps are exact. A missing configuration makes `BuildConfigFromFlags` return a
nil pointer with its error, and `kubernetes.NewForConfig` dereferences its
argument (`configShallowCopy := *c`), so a nil pointer is a panic. -/
def scenarioEnv (s : Scenario) : Env World where
  newClientWithOpts := fun _ w => (none, w)
  containerList := fun _ _ w => (.ok s.containers, w)
  containerRemove := fun _ _ w => (none, w)
  kubeConfigPath := "/home/dev/.kube/kind-config-sanic"
  buildConfigFromFlags := fun _ path w =>
    match s.config with
    | some cfg => ((some cfg, none), w)
    | none => ((none, some ("stat " ++ path ++ ": no such file or directory")), w)
  newForConfig := fun cfg w =>
    match cfg with
    | some c => (.ok ⟨c⟩, w)
    | none => (.panic "invalid memory address or nil pointer dereference", w)
  nodesList := fun _ w => (s.listings w.polls, ⟨w.clock + s.pollTime, w.polls + 1⟩)
  schemeDefault := fun cfg => { cfg with Rest := "defaults" }
  kindCreate := fun _ _ _ w => (s.createError, w)
  getKubectlExecutablePath := fun w => (.ok "/usr/local/bin/kubectl", w)
  environ := fun _ => []
  cmdStart := fun _ w => (none, w)
  cmdWait := fun _ w => ((none, ""), w)
  now := fun w => w.clock
  sleep := fun d w => ⟨w.clock + max d 0, w.polls⟩

/-- A container in the given state with a single name. -/
def mkContainer (name state : String) : Container :=
  ⟨"id-" ++ name, [name], state⟩

/-- A node whose only condition is `Ready` with the given status. -/
def mkNode (name status : String) : Node :=
  ⟨name, ⟨[⟨"Ready", status⟩]⟩⟩

/-- The four required containers, all running. -/
def fourRunning : List Container :=
  [mkContainer "/sanic-control-plane" "running", mkContainer "/sanic-worker" "running",
   mkContainer "/sanic-worker2" "running", mkContainer "/sanic-worker3" "running"]

/-- Four ready nodes. -/
def fourReady : List Node :=
  [mkNode "sanic-control-plane" "True", mkNode "sanic-worker" "True",
   mkNode "sanic-worker2" "True", mkNode "sanic-worker3" "True"]

/-- The order of the keys in the map literal of `checkCluster`. -/
def literalOrder : List String :=
  ["/sanic-worker", "/sanic-worker2", "/sanic-worker3", "/sanic-control-plane"]

/-- The initial state of a scripted world: clock at zero, empty log. -/
def initSt : St World := ⟨⟨0, 0⟩, []⟩

/-- The configuration of the scripted cluster. -/
def simConfig : RestConfig := ⟨"https://127.0.0.1:6443"⟩

/-- The client built from `simConfig`. -/
def simKube : Clientset := ⟨simConfig⟩

/-- A healthy cluster: the four required containers running, four ready nodes. -/
def healthyScenario : Scenario :=
  ⟨fourRunning, fun _ => .nodes fourReady, 1000000, some simConfig, none⟩

/-- A healthy cluster next to a labeled container that has no name. -/
def namelessScenario : Scenario :=
  ⟨fourRunning ++ [⟨"id-dead", [], "dead"⟩], fun _ => .nodes fourReady, 1000000,
    some simConfig, none⟩

/-- A healthy cluster next to a second, exited container listed under the
first name "/sanic-worker2". -/
def duplicateScenario : Scenario :=
  ⟨fourRunning ++ [⟨"id-old", ["/sanic-worker2"], "exited"⟩], fun _ => .nodes fourReady,
    1000000, some simConfig, none⟩

/-- A healthy cluster in which the running container "/sanic-worker2" is
listed with a link alias in front of its own name. -/
def aliasScenario : Scenario :=
  ⟨[mkContainer "/sanic-control-plane" "running", mkContainer "/sanic-worker" "running",
    ⟨"id-/sanic-worker2", ["/proxy/sanic-worker2", "/sanic-worker2"], "running"⟩,
    mkContainer "/sanic-worker3" "running"],
    fun _ => .nodes fourReady, 1000000, some simConfig, none⟩

/-- The containers "/sanic-worker" and "/sanic-worker2" are both stopped. -/
def twoStoppedScenario : Scenario :=
  ⟨[mkContainer "/sanic-control-plane" "running", mkContainer "/sanic-worker" "exited",
    mkContainer "/sanic-worker2" "exited", mkContainer "/sanic-worker3" "running"],
    fun _ => .nodes fourReady, 1000000, some simConfig, none⟩

/-- Only the container "/sanic-worker2" is stopped. -/
def worker2StoppedScenario : Scenario :=
  ⟨[mkContainer "/sanic-control-plane" "running", mkContainer "/sanic-worker" "running",
    mkContainer "/sanic-worker2" "exited", mkContainer "/sanic-worker3" "running"],
    fun _ => .nodes fourReady, 1000000, some simConfig, none⟩

/-- Whether every forced removal made by the loop of `deleteClusterContainers`
over `cs`, started in world `w`, succeeds. -/
def removalsSucceed {W : Type} (env : Env W) : List Container → W → Bool
  | [], _ => true
  | c :: cs, w =>
    (env.containerRemove c.ID true w).1.isNone &&
      removalsSucceed env cs (env.containerRemove c.ID true w).2

/-- Three ready nodes: one node of the expected four is missing. -/
def threeReady : List Node :=
  [mkNode "sanic-control-plane" "True", mkNode "sanic-worker" "True",
   mkNode "sanic-worker2" "True"]

/-- The cluster API lists only three nodes, all ready. -/
def threeNodesScenario : Scenario :=
  ⟨fourRunning, fun _ => .nodes threeReady, 1000000, some simConfig, none⟩

/-- The cluster API lists no node at all. -/
def noNodesScenario : Scenario :=
  ⟨fourRunning, fun _ => .nodes [], 1000000, some simConfig, none⟩

/-- The cluster API never reports all nodes ready; a listing takes 1ms. -/
def neverReadyScenario : Scenario :=
  ⟨fourRunning, fun _ => .nodes [mkNode "sanic-control-plane" "False"], 1000000,
    some simConfig, none⟩

/-- The cluster API never reports all nodes ready; a listing takes 2s. -/
def slowScenario : Scenario :=
  ⟨fourRunning, fun _ => .nodes [mkNode "sanic-control-plane" "False"], 2000000000,
    some simConfig, none⟩

/-- The first two listings report a node that is not ready, the third and
later ones report four ready nodes. -/
def readyAtThirdScenario : Scenario :=
  ⟨fourRunning,
    fun k => if k < 2 then .nodes [mkNode "sanic-control-plane" "False"] else .nodes fourReady,
    1000000, some simConfig, none⟩

/-- A fresh install: no kind configuration on disk, no labeled container;
creation, `kubectl` and the node listings all succeed, with four ready nodes. -/
def freshInstallScenario : Scenario :=
  ⟨[], fun _ => .nodes fourReady, 1000000, none, none⟩

/-- A degraded cluster ("/sanic-worker2" stopped) whose recreation fails in
`kind`. -/
def createFailsScenario : Scenario :=
  ⟨worker2StoppedScenario.containers, fun _ => .nodes fourReady, 1000000, some simConfig,
    some "failed to create cluster: docker run error"⟩

/-- The `kubectl` command `startIngressController` runs in a scripted world. -/
def simKubectl : Cmd :=
  ⟨"/usr/local/bin/kubectl", ["apply", "-f", "-"],
    ["KUBECONFIG=/home/dev/.kube/kind-config-sanic"], traefikIngressYaml⟩

/-- The world reached by the loop of `deleteClusterContainers` over `cs`,
started in world `w`: each forced removal applied in turn. -/
def removedWorld {W : Type} (env : Env W) : List Container → W → W
  | [], w => w
  | c :: cs, w => removedWorld env cs (env.containerRemove c.ID true w).2

/-- A container runtime whose world is the list of the ids removed so far:
the listing shows the containers of `cs` not yet removed, a removal records the
id, and removing an id twice fails. The other collaborators do nothing. -/
def reapEnv (cs : List Container) : Env (List String) where
  newClientWithOpts := fun _ w => (none, w)
  containerList := fun _ _ w => (.ok (cs.filter (fun c => !w.contains c.ID)), w)
  containerRemove := fun id _ w =>
    if w.contains id then (some ("No such container: " ++ id), w) else (none, w ++ [id])
  kubeConfigPath := "/home/dev/.kube/kind-config-sanic"
  buildConfigFromFlags := fun _ _ w => ((some simConfig, none), w)
  newForConfig := fun _ w => (.ok simKube, w)
  nodesList := fun _ w => (.nodes fourReady, w)
  schemeDefault := fun cfg => cfg
  kindCreate := fun _ _ _ w => (none, w)
  getKubectlExecutablePath := fun w => (.ok "/usr/local/bin/kubectl", w)
  environ := fun _ => []
  cmdStart := fun _ w => (none, w)
  cmdWait := fun _ w => ((none, ""), w)
  now := fun _ => 0
  sleep := fun _ w => w

/-! ## Properties of `kubeNodeReady` -/

/-- The step function of the fold of `kubeNodeReady` leaves the accumulator
alone on conditions that are not of type `NodeReady`. -/
theorem readyFold_no_ready (post : List NodeCondition) (b : Bool)
    (h : ∀ d ∈ post, d.Typ ≠ NodeReady) :
    post.foldl (fun ready condition =>
      if condition.Typ = NodeReady then decide (condition.Status = ConditionTrue) else ready) b
      = b := by
  induction post generalizing b with
  | nil => rfl
  | cons d post ih =>
    have hd : d.Typ ≠ NodeReady := h d (List.mem_cons_self _ _)
    simp only [List.foldl_cons, if_neg hd]
    exact ih b (fun x hx => h x (List.mem_cons_of_mem _ hx))

/-- A true result of the fold either comes from the initial value, with no
`NodeReady` condition at all, or from a last `NodeReady` condition whose status
is `ConditionTrue`. -/
theorem readyFold_true (l : List NodeCondition) (b : Bool)
    (h : l.foldl (fun ready condition =>
      if condition.Typ = NodeReady then decide (condition.Status = ConditionTrue) else ready) b
      = true) :
    (b = true ∧ ∀ d ∈ l, d.Typ ≠ NodeReady) ∨
    ∃ pre c post, l = pre ++ c :: post ∧ c.Typ = NodeReady ∧ c.Status = ConditionTrue ∧
      ∀ d ∈ post, d.Typ ≠ NodeReady := by
  induction l generalizing b with
  | nil => exact Or.inl ⟨h, by simp⟩
  | cons a l ih =>
    rw [List.foldl_cons] at h
    rcases ih _ h with ⟨hb, hno⟩ | ⟨pre, c, post, hl, hc, hs, hno⟩
    · by_cases ha : a.Typ = NodeReady
      · rw [if_pos ha] at hb
        exact Or.inr ⟨[], a, l, rfl, ha, of_decide_eq_true hb, hno⟩
      · rw [if_neg ha] at hb
        refine Or.inl ⟨hb, ?_⟩
        intro d hd
        rcases List.mem_cons.mp hd with rfl | hd
        · exact ha
        · exact hno d hd
    · exact Or.inr ⟨a :: pre, c, post, by rw [hl]; rfl, hc, hs, hno⟩

/-- Claim C2. `kubeNodeReady` is true exactly when the conditions contain a
condition of type "Ready" and the last such condition has status "True"; hence
it is false on the empty sequence, false when no condition has type "Ready",
and false on [Ready=True, Ready=False], where the last entry wins. -/
theorem kubeNodeReady_last_ready_wins :
    (∀ node : Node, kubeNodeReady node = true ↔
      ∃ pre c post, node.Status.Conditions = pre ++ c :: post ∧ c.Typ = "Ready" ∧
        c.Status = "True" ∧ ∀ d ∈ post, d.Typ ≠ "Ready") ∧
    (∀ name : String, kubeNodeReady ⟨name, ⟨[]⟩⟩ = false) ∧
    (∀ node : Node, (∀ c ∈ node.Status.Conditions, c.Typ ≠ "Ready") →
      kubeNodeReady node = false) ∧
    kubeNodeReady ⟨"n", ⟨[⟨"Ready", "True"⟩, ⟨"Ready", "False"⟩]⟩⟩ = false ∧
    kubeNodeReady ⟨"n", ⟨[⟨"Ready", "False"⟩, ⟨"Ready", "True"⟩]⟩⟩ = true := by
  refine ⟨?_, ?_, ?_, by decide, by decide⟩
  · intro node
    constructor
    · intro h
      rcases readyFold_true _ _ h with ⟨hb, _⟩ | hex
      · exact absurd hb (by decide)
      · exact hex
    · rintro ⟨pre, c, post, hl, hc, hs, hno⟩
      have hc1 : c.Typ = NodeReady := hc
      have hs1 : c.Status = ConditionTrue := hs
      unfold kubeNodeReady
      rw [hl, List.foldl_append, List.foldl_cons, if_pos hc1, readyFold_no_ready post _ hno]
      exact decide_eq_true hs1
  · intro name
    rfl
  · intro node hno
    unfold kubeNodeReady
    exact readyFold_no_ready _ _ hno

/-! ## Properties of `checkCluster` -/

/-- Reading a key after the map assignment `m[k] = v`. -/
theorem mapSet_lookup (m : List (String × Bool)) (k : String) (v : Bool) (k1 : String) :
    (mapSet m k v).lookup k1 = if k1 = k then (m.lookup k1).map (fun _ => v) else m.lookup k1 := by
  induction m with
  | nil => simp [mapSet]
  | cons a m ih =>
    obtain ⟨a1, b1⟩ := a
    unfold mapSet at ih ⊢
    by_cases h1 : k1 = a1
    · subst h1
      by_cases h2 : k1 = k
      · simp [List.lookup_cons, h2]
      · simp [List.lookup_cons, h2]
    · by_cases h2 : a1 = k
      · subst h2
        simp only [List.map_cons, if_true, List.lookup_cons]
        have : (k1 == a1) = false := by simpa using h1
        simp only [this, ih]
      · simp only [List.map_cons, if_neg h2, List.lookup_cons]
        have : (k1 == a1) = false := by simpa using h1
        simp only [this, ih]

/-- The map assignment keeps the number of entries. -/
theorem mapSet_length (m : List (String × Bool)) (k : String) (v : Bool) :
    (mapSet m k v).length = m.length := by
  simp [mapSet]

/-- The last container named `k` of a listing with one more container in front. -/
theorem lastNamed_cons (c : Container) (cs : List Container) (k : String) :
    lastNamed (c :: cs) k =
      (lastNamed cs k).or (if c.Names.head? = some k then some c else none) := by
  unfold lastNamed
  rw [List.reverse_cons, List.find?_append]
  congr 1
  by_cases h : c.Names.head? = some k <;> simp [List.find?_cons, h]

/-- The first loop of `checkCluster` on a listing in which every container has
a name: it does not panic, keeps the keys of the map, and leaves under each key
whether the last container with that first name is running (the initial value
when there is no such container). -/
theorem markRunning_spec (cs : List Container) (hnames : ∀ c ∈ cs, c.Names ≠ [])
    (m : List (String × Bool)) :
    ∃ m1, markRunning cs m = some m1 ∧ m1.length = m.length ∧
      ∀ k, m1.lookup k = (m.lookup k).map (fun b =>
        match lastNamed cs k with
        | some c => decide (c.State = "running")
        | none => b) := by
  induction cs generalizing m with
  | nil =>
    refine ⟨m, rfl, rfl, ?_⟩
    intro k
    cases h : m.lookup k <;> simp [lastNamed]
  | cons c cs ih =>
    have hc : c.Names ≠ [] := hnames c (List.mem_cons_self _ _)
    have hcs : ∀ d ∈ cs, d.Names ≠ [] := fun d hd => hnames d (List.mem_cons_of_mem _ hd)
    obtain ⟨name, tl, hN⟩ : ∃ name tl, c.Names = name :: tl := by
      cases hn : c.Names with
      | nil => exact absurd hn hc
      | cons name tl => exact ⟨name, tl, rfl⟩
    have hhead : c.Names.head? = some name := by rw [hN]; rfl
    by_cases hk : (m.lookup name).isSome = true
    · obtain ⟨m1, h1, h2, h3⟩ := ih hcs (mapSet m name (decide (c.State = "running")))
      refine ⟨m1, ?_, ?_, ?_⟩
      · rw [markRunning, hN]
        simp only [hk, if_true]
        exact h1
      · rw [h2, mapSet_length]
      · intro k
        rw [h3 k, mapSet_lookup, lastNamed_cons, hhead]
        by_cases hkn : k = name
        · subst hkn
          cases hl : lastNamed cs k <;> cases hm : m.lookup k <;> simp [Option.or]
        · have hne : ¬ (some name = some k) := fun h => hkn (Option.some.inj h).symm
          simp only [if_neg hkn, if_neg hne, Option.or_none]
    · obtain ⟨m1, h1, h2, h3⟩ := ih hcs m
      refine ⟨m1, ?_, h2, ?_⟩
      · rw [markRunning, hN]
        simp only [hk]
        exact h1
      · intro k
        rw [h3 k, lastNamed_cons, hhead]
        by_cases hkn : k = name
        · subst hkn
          have : m.lookup k = none := by
            cases hm : m.lookup k with
            | none => rfl
            | some b => simp [hm] at hk
          simp [this]
        · have hne : ¬ (some name = some k) := fun h => hkn (Option.some.inj h).symm
          simp only [if_neg hne, Option.or_none]

/-- Unfolding of `runningLast`. -/
theorem runningLast_iff (cs : List Container) (k : String) :
    runningLast cs k = true ↔ ∃ c, lastNamed cs k = some c ∧ c.State = "running" := by
  unfold runningLast
  cases h : lastNamed cs k with
  | none => simp
  | some c => simp

/-- The keys of the map literal are the four required names. -/
theorem mem_literalOrder_iff (k : String) : k ∈ literalOrder ↔ k ∈ requiredNames := by
  simp only [literalOrder, requiredNames, List.mem_cons, List.mem_singleton, List.not_mem_nil,
    or_false]
  tauto

/-- Every required name is a key of the map literal, with value false. -/
theorem required_lookup (k : String) (hk : k ∈ requiredNames) :
    requiredContainersRunning.lookup k = some false := by
  simp only [requiredNames, List.mem_cons, List.mem_singleton, List.not_mem_nil, or_false] at hk
  rcases hk with rfl | rfl | rfl | rfl <;> decide

/-- Both loops of `checkCluster` on a listing in which every container has a
name: the first loop does not panic and leaves a map with four entries, and the
second loop finds no entry to report exactly when every required name is
running; an entry it reports is a required name that is not running. -/
theorem containerCheck_spec (cs : List Container) (hnames : ∀ c ∈ cs, c.Names ≠ [])
    (order : List String) (horder : order.Perm (requiredContainersRunning.map Prod.fst)) :
    ∃ m1, markRunning cs requiredContainersRunning = some m1 ∧ m1.length = 4 ∧
      (firstNotRunning order m1 = none ↔ ∀ k ∈ requiredNames, runningLast cs k = true) ∧
      (∀ X, firstNotRunning order m1 = some X → X ∈ requiredNames ∧ runningLast cs X = false) := by
  obtain ⟨m1, h1, h2, h3⟩ := markRunning_spec cs hnames requiredContainersRunning
  have hmem : ∀ k, k ∈ order ↔ k ∈ requiredNames := fun k =>
    (horder.mem_iff).trans (mem_literalOrder_iff k)
  have hlk : ∀ k ∈ requiredNames, m1.lookup k = some (runningLast cs k) := by
    intro k hk
    rw [h3 k, required_lookup k hk]
    unfold runningLast
    cases lastNamed cs k <;> rfl
  refine ⟨m1, h1, by rw [h2]; rfl, ?_, ?_⟩
  · unfold firstNotRunning
    rw [List.find?_eq_none]
    constructor
    · intro h k hk
      have := h k ((hmem k).mpr hk)
      rw [hlk k hk] at this
      simpa using this
    · intro h k hk
      rw [hlk k ((hmem k).mp hk), h k ((hmem k).mp hk)]
      simp
  · intro X hX
    unfold firstNotRunning at hX
    have hXmem : X ∈ requiredNames := (hmem X).mp (List.mem_of_find?_eq_some hX)
    have hp := List.find?_some hX
    rw [hlk X hXmem] at hp
    refine ⟨hXmem, ?_⟩
    cases hr : runningLast cs X with
    | false => rfl
    | true => simp [hr] at hp

/-- The node loop of `checkCluster` finds no node that is not ready exactly
when every listed node is ready. -/
theorem any_not_ready_false (items : List Node) :
    items.any (fun node => !kubeNodeReady node) = false ↔
      ∀ node ∈ items, kubeNodeReady node = true := by
  rw [← Bool.not_eq_true, List.any_eq_true]
  constructor
  · intro h node hn
    by_contra hc
    exact h ⟨node, hn, by simpa using hc⟩
  · rintro h ⟨node, hn, hc⟩
    rw [h node hn] at hc
    simp at hc

/-- When no two listed containers share a first name, the last container with
a given first name is the container with that name. -/
theorem lastNamed_of_nodup (cs : List Container)
    (hnodup : (cs.map (fun c => c.Names.head?)).Nodup) (k : String) :
    (∃ c, lastNamed cs k = some c ∧ c.State = "running") ↔
      ∃ c ∈ cs, c.Names.head? = some k ∧ c.State = "running" := by
  constructor
  · rintro ⟨c, hc, hs⟩
    unfold lastNamed at hc
    have hmem : c ∈ cs := List.mem_reverse.mp (List.mem_of_find?_eq_some hc)
    have hp := List.find?_some hc
    exact ⟨c, hmem, of_decide_eq_true hp, hs⟩
  · rintro ⟨c, hmem, hh, hs⟩
    have hsome : (lastNamed cs k).isSome = true := by
      unfold lastNamed
      rw [List.find?_isSome]
      exact ⟨c, List.mem_reverse.mpr hmem, decide_eq_true hh⟩
    obtain ⟨d, hd⟩ := Option.isSome_iff_exists.mp hsome
    have hd1 := hd
    unfold lastNamed at hd1
    have hdmem : d ∈ cs := List.mem_reverse.mp (List.mem_of_find?_eq_some hd1)
    have hdp := List.find?_some hd1
    have hdh : d.Names.head? = some k := of_decide_eq_true hdp
    have hcd : c = d := List.inj_on_of_nodup_map hnodup hmem hdmem (hh.trans hdh.symm)
    exact ⟨d, hd, hcd ▸ hs⟩

/-- Claim C1, as amended. When both listings succeed and every listed container
has at least one name, `checkCluster` returns nil exactly when (a) for each of
the four required names the last listed container with that first name exists
and is running, (b) exactly 4 nodes are listed, (c) every listed node is ready.
When moreover no two listed containers share a first name, (a) says that each
required name is the first name of a listed container in state "running". -/
theorem checkCluster_healthy_iff {W : Type} (env : Env W) (order : List String)
    (kube : Clientset) (st : St W) (cs : List Container) (w1 : W) (items : List Node) (w2 : W)
    (horder : order.Perm (requiredContainersRunning.map Prod.fst))
    (hlist : env.containerList true kindClusterLabel st.w = (.ok cs, w1))
    (hnodes : env.nodesList kube w1 = (.nodes items, w2))
    (hnames : ∀ c ∈ cs, c.Names ≠ []) :
    ((checkCluster env order kube st).1 = .ok () ↔
      (∀ name ∈ requiredNames, ∃ c, lastNamed cs name = some c ∧ c.State = "running") ∧
      items.length = 4 ∧ ∀ node ∈ items, kubeNodeReady node = true) ∧
    ((cs.map (fun c => c.Names.head?)).Nodup →
      ((checkCluster env order kube st).1 = .ok () ↔
        (∀ name ∈ requiredNames, ∃ c ∈ cs, c.Names.head? = some name ∧ c.State = "running") ∧
        items.length = 4 ∧ ∀ node ∈ items, kubeNodeReady node = true)) := by
  have main : (checkCluster env order kube st).1 = .ok () ↔
      (∀ name ∈ requiredNames, ∃ c, lastNamed cs name = some c ∧ c.State = "running") ∧
      items.length = 4 ∧ ∀ node ∈ items, kubeNodeReady node = true := by
    obtain ⟨m1, hm, hlen, hnone, hsome⟩ := containerCheck_spec cs hnames order horder
    have hrun : (∀ k ∈ requiredNames, runningLast cs k = true) ↔
        ∀ name ∈ requiredNames, ∃ c, lastNamed cs name = some c ∧ c.State = "running" :=
      forall₂_congr (fun k _ => runningLast_iff cs k)
    unfold checkCluster
    simp only [hlist, hm]
    cases hf : firstNotRunning order m1 with
    | some X =>
      obtain ⟨hX, hXr⟩ := hsome X hf
      constructor
      · intro h
        cases h
      · rintro ⟨ha, _, _⟩
        have := hrun.mpr ha X hX
        rw [hXr] at this
        cases this
    | none =>
      have ha := hrun.mp (hnone.mp hf)
      simp only [hnodes, hlen]
      by_cases hl : items.length = 4
      · by_cases hr : items.any (fun node => !kubeNodeReady node) = true
        · have hnr : ¬ ∀ node ∈ items, kubeNodeReady node = true := by
            rw [← any_not_ready_false]
            simp [hr]
          simp [hl, hr, hnr]
        · have hr1 : items.any (fun node => !kubeNodeReady node) = false := by
            simpa using hr
          have hall := (any_not_ready_false items).mp hr1
          simp only [hl, ne_eq, not_true_eq_false, if_false, hr1, Bool.false_eq_true, true_iff]
          exact ⟨ha, trivial, hall⟩
      · simp [hl]
  refine ⟨main, fun hnodup => main.trans ?_⟩
  have : (∀ name ∈ requiredNames, ∃ c, lastNamed cs name = some c ∧ c.State = "running") ↔
      ∀ name ∈ requiredNames, ∃ c ∈ cs, c.Names.head? = some name ∧ c.State = "running" :=
    forall₂_congr (fun k _ => lastNamed_of_nodup cs hnodup k)
  rw [this]

/-- Witness for `checkCluster_healthy_iff`: four running required containers
and four ready nodes are reported healthy. -/
theorem checkCluster_healthy_iff_witness :
    (checkCluster (scenarioEnv healthyScenario) literalOrder simKube initSt).1 = .ok () :=
  ((checkCluster_healthy_iff (scenarioEnv healthyScenario) literalOrder simKube initSt
    fourRunning ⟨0, 0⟩ fourReady ⟨1000000, 1⟩ (List.Perm.refl _) rfl rfl (by decide)).1).mpr
    ⟨fun name hn => (runningLast_iff fourRunning name).mp (by
        simp only [requiredNames, List.mem_cons, List.mem_singleton, List.not_mem_nil,
          or_false] at hn
        rcases hn with rfl | rfl | rfl | rfl <;> decide),
      by decide, by decide⟩

/-- Claim C1 as stated fails on three listings in which each required name is
a name of a running listed container, 4 nodes are listed and all are ready: a
listed container without a name makes `Names[0]` panic; a later exited
container listed under "/sanic-worker2" overwrites the running one; and a
running "/sanic-worker2" whose first listed name is a link alias is not
recognised. -/
theorem checkCluster_healthy_iff_counterexample :
    ((checkCluster (scenarioEnv namelessScenario) literalOrder simKube initSt).1
        = .panic "index out of range [0] with length 0" ∧
      (∀ name ∈ requiredNames, ∃ c ∈ namelessScenario.containers,
        c.Names.head? = some name ∧ c.State = "running") ∧
      namelessScenario.listings 0 = .nodes fourReady ∧ fourReady.length = 4 ∧
      ∀ node ∈ fourReady, kubeNodeReady node = true) ∧
    ((checkCluster (scenarioEnv duplicateScenario) literalOrder simKube initSt).1
        = .err "at least one required container isn't running: /sanic-worker2" ∧
      (∀ name ∈ requiredNames, ∃ c ∈ duplicateScenario.containers,
        c.Names.head? = some name ∧ c.State = "running") ∧
      duplicateScenario.listings 0 = .nodes fourReady) ∧
    ((checkCluster (scenarioEnv aliasScenario) literalOrder simKube initSt).1
        = .err "at least one required container isn't running: /sanic-worker2" ∧
      (∀ name ∈ requiredNames, ∃ c ∈ aliasScenario.containers,
        name ∈ c.Names ∧ c.State = "running") ∧
      aliasScenario.listings 0 = .nodes fourReady) := by
  refine ⟨⟨by decide, by decide, rfl, rfl, by decide⟩, ⟨by decide, by decide, rfl⟩,
    by decide, by decide, rfl⟩

/-- Claim C8, as amended. When the container listing succeeds, every listed
container has a name, and the last listed container with first name
"/sanic-worker2" is not running, `checkCluster` returns, without listing the
nodes, the error "at least one required container isn't running: X" for a
required name X that is not running: the first such name in the order in which
the run time ranges over the map. X is "/sanic-worker2" when the other three
required names are running. -/
theorem checkCluster_worker2_stopped {W : Type} (env : Env W) (order : List String)
    (kube : Clientset) (st : St W) (cs : List Container) (w1 : W) (c : Container)
    (horder : order.Perm (requiredContainersRunning.map Prod.fst))
    (hlist : env.containerList true kindClusterLabel st.w = (.ok cs, w1))
    (hnames : ∀ d ∈ cs, d.Names ≠ [])
    (hlast : lastNamed cs "/sanic-worker2" = some c)
    (hstopped : c.State ≠ "running") :
    ∃ X ∈ requiredNames,
      (¬ ∃ d, lastNamed cs X = some d ∧ d.State = "running") ∧
      checkCluster env order kube st =
        (.err ("at least one required container isn't running: " ++ X),
          ⟨w1, st.log ++ [Event.containerList true kindClusterLabel]⟩) ∧
      ((∀ name ∈ requiredNames, name ≠ "/sanic-worker2" →
          ∃ d, lastNamed cs name = some d ∧ d.State = "running") →
        X = "/sanic-worker2") := by
  obtain ⟨m1, hm, _, hnone, hsome⟩ := containerCheck_spec cs hnames order horder
  have hw2 : runningLast cs "/sanic-worker2" = false := by
    unfold runningLast
    rw [hlast]
    exact decide_eq_false hstopped
  cases hf : firstNotRunning order m1 with
  | none =>
    have := hnone.mp hf "/sanic-worker2" (by decide)
    rw [hw2] at this
    cases this
  | some X =>
    obtain ⟨hX, hXr⟩ := hsome X hf
    have hnot : ¬ ∃ d, lastNamed cs X = some d ∧ d.State = "running" := by
      rw [← runningLast_iff, hXr]
      simp
    refine ⟨X, hX, hnot, ?_, ?_⟩
    · unfold checkCluster
      simp only [hlist, hm, hf]
    · intro hothers
      by_contra hne
      exact hnot (hothers X hX hne)

/-- Witness for `checkCluster_worker2_stopped`: with only "/sanic-worker2"
stopped, the error names "/sanic-worker2". -/
theorem checkCluster_worker2_stopped_witness :
    ∃ X ∈ requiredNames,
      (¬ ∃ d, lastNamed worker2StoppedScenario.containers X = some d ∧ d.State = "running") ∧
      checkCluster (scenarioEnv worker2StoppedScenario) literalOrder simKube initSt =
        (.err ("at least one required container isn't running: " ++ X),
          ⟨⟨0, 0⟩, [] ++ [Event.containerList true kindClusterLabel]⟩) ∧
      ((∀ name ∈ requiredNames, name ≠ "/sanic-worker2" →
          ∃ d, lastNamed worker2StoppedScenario.containers name = some d ∧
            d.State = "running") →
        X = "/sanic-worker2") :=
  checkCluster_worker2_stopped (scenarioEnv worker2StoppedScenario) literalOrder simKube initSt
    worker2StoppedScenario.containers ⟨0, 0⟩ (mkContainer "/sanic-worker2" "exited")
    (List.Perm.refl _) rfl (by decide) (by decide) (by decide)

/-- Claim C8 as stated fails when another required container is not running
either: with "/sanic-worker" and "/sanic-worker2" both stopped and the map
ranged over in the order of its literal, the error names "/sanic-worker" and
its text does not contain "/sanic-worker2". -/
theorem checkCluster_worker2_stopped_counterexample :
    (∃ c ∈ twoStoppedScenario.containers,
      c.Names = ["/sanic-worker2"] ∧ c.State ≠ "running") ∧
    (checkCluster (scenarioEnv twoStoppedScenario) literalOrder simKube initSt).1 =
      .err "at least one required container isn't running: /sanic-worker" ∧
    ¬ ("/sanic-worker2".data <:+:
      "at least one required container isn't running: /sanic-worker".data) := by
  refine ⟨by decide, by decide, by decide⟩

/-! ## Properties of `deleteClusterContainers` -/

/-- The removal loop, when every removal succeeds: it returns nil in the world
left by the removals, after one forced removal per listed container, in
listing order. -/
theorem removeContainers_spec {W : Type} (env : Env W) (cs : List Container) (st : St W)
    (h : removalsSucceed env cs st.w = true) :
    removeContainers env cs st =
      (.ok (), ⟨removedWorld env cs st.w,
        st.log ++ cs.map (fun c => Event.containerRemove c.ID true)⟩) := by
  induction cs generalizing st with
  | nil => simp [removeContainers, removedWorld]
  | cons c cs ih =>
    simp only [removalsSucceed, Bool.and_eq_true, Option.isNone_iff_eq_none] at h
    obtain ⟨h1, h2⟩ := h
    have hw2 := ih ⟨(env.containerRemove c.ID true st.w).2,
      st.log ++ [Event.containerRemove c.ID true]⟩ h2
    rw [removeContainers]
    simp only [h1, hw2, removedWorld, List.map_cons, List.append_assoc, List.singleton_append]

/-- The removal loop, when the removals of `pre` succeed and the removal of the
next container `c` fails with `e`: it returns `e` in the world left by that
failed call, and makes no removal for the containers after `c`. -/
theorem removeContainers_fail {W : Type} (env : Env W) (pre : List Container) (c : Container)
    (post : List Container) (e : String) (st : St W)
    (hpre : removalsSucceed env pre st.w = true)
    (hc : (env.containerRemove c.ID true (removedWorld env pre st.w)).1 = some e) :
    removeContainers env (pre ++ c :: post) st =
      (.err e, ⟨(env.containerRemove c.ID true (removedWorld env pre st.w)).2,
        st.log ++ (pre ++ [c]).map (fun d => Event.containerRemove d.ID true)⟩) := by
  induction pre generalizing st with
  | nil =>
    simp only [removedWorld] at hc
    simp only [List.nil_append, removeContainers, hc, removedWorld, List.map_cons, List.map_nil]
  | cons d pre ih =>
    simp only [removalsSucceed, Bool.and_eq_true, Option.isNone_iff_eq_none] at hpre
    obtain ⟨h1, h2⟩ := hpre
    have hrec := ih ⟨(env.containerRemove d.ID true st.w).2,
      st.log ++ [Event.containerRemove d.ID true]⟩ h2 hc
    rw [List.cons_append, removeContainers]
    simp only [h1, hrec, removedWorld, List.cons_append, List.map_cons, List.append_assoc,
      List.singleton_append, List.nil_append]

/-- Claim C9. When the runtime lists the labeled containers `cs` (running or
not) and every removal succeeds, `deleteClusterContainers` returns nil, the
world it leaves is the listing's world with the forced removal of each listed
container applied in listing order, and the calls it made are the listing (all
containers, ownership label) followed by exactly one removal with force=true
per listed container id, in listing order; with no labeled container it makes
the listing and no removal and leaves the listing's world. A removal that fails
is not passed over: the loop stops there with that error, having made no
removal for the containers listed after it. -/
theorem deleteClusterContainers_removes_each {W : Type} (env : Env W) (st : St W)
    (cs : List Container) (w1 : W)
    (hlist : env.containerList true kindClusterLabel st.w = (.ok cs, w1))
    (hremove : removalsSucceed env cs w1 = true) :
    deleteClusterContainers env st =
      (.ok (), ⟨removedWorld env cs w1,
        st.log ++ Event.containerList true "io.k8s.sigs.kind.cluster" ::
          cs.map (fun c => Event.containerRemove c.ID true)⟩) ∧
    (cs = [] → deleteClusterContainers env st =
      (.ok (), ⟨w1, st.log ++ [Event.containerList true "io.k8s.sigs.kind.cluster"]⟩)) ∧
    (∀ (st0 : St W) (pre : List Container) (c : Container) (post : List Container) (w0 : W)
        (e : String),
      env.containerList true kindClusterLabel st0.w = (.ok (pre ++ c :: post), w0) →
      removalsSucceed env pre w0 = true →
      (env.containerRemove c.ID true (removedWorld env pre w0)).1 = some e →
      deleteClusterContainers env st0 =
        (.err e, ⟨(env.containerRemove c.ID true (removedWorld env pre w0)).2,
          st0.log ++ Event.containerList true "io.k8s.sigs.kind.cluster" ::
            (pre ++ [c]).map (fun d => Event.containerRemove d.ID true)⟩)) := by
  refine ⟨?_, ?_, ?_⟩
  · have hw2 := removeContainers_spec env cs
      ⟨w1, st.log ++ [Event.containerList true kindClusterLabel]⟩ hremove
    unfold deleteClusterContainers
    simp only [hlist, hw2, List.append_assoc, List.singleton_append]
    rfl
  · intro hcs
    subst hcs
    unfold deleteClusterContainers
    simp only [hlist, removeContainers]
    rfl
  · intro st0 pre c post w0 e hl hpre hc
    have hf := removeContainers_fail env pre c post e
      ⟨w0, st0.log ++ [Event.containerList true kindClusterLabel]⟩ hpre hc
    unfold deleteClusterContainers
    simp only [hl, hf, List.append_assoc, List.singleton_append]
    rfl

/-- Witness for `deleteClusterContainers_removes_each`: a listing of two
running and two exited containers, in a world that records the removals: the
four ids are removed, in listing order. -/
theorem deleteClusterContainers_removes_each_witness :
    deleteClusterContainers (reapEnv twoStoppedScenario.containers) ⟨[], []⟩ =
      (.ok (), ⟨["id-/sanic-control-plane", "id-/sanic-worker", "id-/sanic-worker2",
          "id-/sanic-worker3"],
        [Event.containerList true "io.k8s.sigs.kind.cluster",
         Event.containerRemove "id-/sanic-control-plane" true,
         Event.containerRemove "id-/sanic-worker" true,
         Event.containerRemove "id-/sanic-worker2" true,
         Event.containerRemove "id-/sanic-worker3" true]⟩) :=
  (deleteClusterContainers_removes_each (reapEnv twoStoppedScenario.containers) ⟨[], []⟩
    twoStoppedScenario.containers [] rfl (by decide)).1

/-! ## Properties of `waitNodesReady` -/

/-- The fold of `allNodesReady` from any initial value. -/
theorem allNodesReady_fold (items : List Node) (b : Bool) :
    items.foldl (fun allReady node => if !kubeNodeReady node then false else allReady) b =
      (b && items.all kubeNodeReady) := by
  induction items generalizing b with
  | nil => simp
  | cons node items ih =>
    rw [List.foldl_cons, ih]
    cases hk : kubeNodeReady node <;> simp [hk]

/-- The flag `allNodesReady` is true exactly when every listed node is ready. -/
theorem allNodesReady_iff (items : List Node) :
    allNodesReady items = true ↔ ∀ node ∈ items, kubeNodeReady node = true := by
  unfold allNodesReady
  rw [allNodesReady_fold]
  simp

/-- A pass whose listing has every node ready returns nil right after the
listing. -/
theorem body_ready {W : Type} (env : Env W) (kube : Clientset) (timeout startTime : Int)
    (st : St W) (items : List Node) (w1 : W)
    (hlist : env.nodesList kube st.w = (.nodes items, w1))
    (hready : ∀ node ∈ items, kubeNodeReady node = true) :
    waitNodesReadyBody env kube timeout startTime st =
      .done (.ok ()) ⟨w1, st.log ++ [Event.nodesList kube (.nodes items)]⟩ := by
  unfold waitNodesReadyBody
  simp only [hlist, (allNodesReady_iff items).mpr hready, if_true]

/-- A pass whose listing fails, or has a node that is not ready, goes on to the
deadline check with the error of that poll. -/
theorem body_not_ready {W : Type} (env : Env W) (kube : Clientset) (timeout startTime : Int)
    (st : St W)
    (hnot : ∀ items, (env.nodesList kube st.w).1 = .nodes items →
      ∃ node ∈ items, kubeNodeReady node = false) :
    waitNodesReadyBody env kube timeout startTime st =
      waitDeadline env timeout startTime (pollError (env.nodesList kube st.w).1)
        ⟨(env.nodesList kube st.w).2,
          st.log ++ [Event.nodesList kube (env.nodesList kube st.w).1]⟩ := by
  unfold waitNodesReadyBody
  cases hr : (env.nodesList kube st.w).1 with
  | failed e => simp only [hr, pollError]
  | nodes items =>
    obtain ⟨node, hn, hk⟩ := hnot items hr
    have : allNodesReady items = false := by
      rw [← Bool.not_eq_true, allNodesReady_iff]
      intro h
      rw [h node hn] at hk
      cases hk
    simp only [hr, this, pollError, Bool.false_eq_true, if_false]

/-- A pass that goes round again made one listing whose result was not "all
ready", one clock reading and one sleep. -/
theorem body_again {W : Type} (env : Env W) (kube : Clientset) (timeout startTime : Int)
    (st st1 : St W) (h : waitNodesReadyBody env kube timeout startTime st = .again st1) :
    ∃ r t d, st1.log = st.log ++ [Event.nodesList kube r, Event.timeNow t, Event.timeSleep d] ∧
      ∀ items, r = .nodes items → ¬ ∀ node ∈ items, kubeNodeReady node = true := by
  unfold waitNodesReadyBody at h
  cases hr : (env.nodesList kube st.w).1 with
  | failed e =>
    simp only [hr, waitDeadline] at h
    refine ⟨.failed e, env.now (env.nodesList kube st.w).2, ?_⟩
    split_ifs at h with h1 h2
    · refine ⟨pollInterval, ?_, fun items hi => by cases hi⟩
      cases h
      simp
    · refine ⟨timeout - (env.now (env.nodesList kube st.w).2 - startTime), ?_,
        fun items hi => by cases hi⟩
      cases h
      simp
  | nodes items =>
    simp only [hr, waitDeadline] at h
    refine ⟨.nodes items, env.now (env.nodesList kube st.w).2, ?_⟩
    split_ifs at h with h0 h1 h2
    · refine ⟨pollInterval, ?_, ?_⟩
      · cases h
        simp
      · intro items1 hi
        cases hi
        rw [← allNodesReady_iff]
        exact h0
    · refine ⟨timeout - (env.now (env.nodesList kube st.w).2 - startTime), ?_, ?_⟩
      · cases h
        simp
      · intro items1 hi
        cases hi
        rw [← allNodesReady_iff]
        exact h0

/-- After `n` passes that all go round again the loop has made `n` listings,
none of them "all ready", and `n` sleeps, and carries on from the state reached. -/
theorem waitPasses_spec {W : Type} (env : Env W) (kube : Clientset) (timeout startTime : Int)
    (n : Nat) (st stn : St W)
    (h : waitPasses env kube timeout startTime n st = some stn) :
    (∃ evs, stn.log = st.log ++ evs ∧ evs.countP Event.isSleep = n ∧
      evs.countP Event.isPoll = n ∧
      ∀ k r, Event.nodesList k r ∈ evs → ∀ items, r = .nodes items →
        ¬ ∀ node ∈ items, kubeNodeReady node = true) ∧
    ∀ fuel, waitNodesReadyLoop env kube timeout startTime (n + fuel) st =
      waitNodesReadyLoop env kube timeout startTime fuel stn := by
  induction n generalizing st with
  | zero =>
    simp only [waitPasses, Option.some.injEq] at h
    subst h
    exact ⟨⟨[], by simp, rfl, rfl, by simp⟩, fun fuel => by rw [Nat.zero_add]⟩
  | succ n ih =>
    rw [waitPasses] at h
    cases hb : waitNodesReadyBody env kube timeout startTime st with
    | done res st1 => simp [hb] at h
    | again st1 =>
      simp only [hb] at h
      obtain ⟨⟨evs, hlog, hs, hp, hnr⟩, hloop⟩ := ih st1 h
      obtain ⟨r, t, d, hlog1, hr⟩ := body_again env kube timeout startTime st st1 hb
      refine ⟨⟨[Event.nodesList kube r, Event.timeNow t, Event.timeSleep d] ++ evs, ?_, ?_, ?_,
        ?_⟩, ?_⟩
      · rw [hlog, hlog1, List.append_assoc]
      · rw [List.countP_append, hs]
        simp [List.countP_cons, Event.isSleep]
        omega
      · rw [List.countP_append, hp]
        simp [List.countP_cons, Event.isPoll]
        omega
      · intro k r1 hmem items hi
        rcases List.mem_append.mp hmem with hm | hm
        · simp only [List.mem_cons, Event.nodesList.injEq, List.mem_singleton, List.not_mem_nil,
            or_false, reduceCtorEq] at hm
          obtain ⟨_, rfl⟩ := hm
          exact hr items hi
        · exact hnr k r1 hm items hi
      · intro fuel
        rw [show n + 1 + fuel = (n + fuel) + 1 by omega, waitNodesReadyLoop]
        simp only [hb]
        exact hloop fuel

/-- Claim C7. For every timeout: if the first `n` passes of the loop go round
again and the listing of the next pass succeeds with every listed node ready,
`waitNodesReady` returns nil right after that listing, for every fuel above
`n`. By then it has made `n` sleeps and `n` earlier listings, none of which was
"all ready", and the ready listing is the last call it makes. With `n = 0`, a
first listing that is all ready gives nil after zero sleeps. -/
theorem waitNodesReady_returns_at_first_ready {W : Type} (env : Env W) (kube : Clientset)
    (timeout : Int) (n : Nat) (st stn : St W) (items : List Node) (w1 : W)
    (hpasses : waitPasses env kube timeout (env.now st.w) n
      ⟨st.w, st.log ++ [Event.timeNow (env.now st.w)]⟩ = some stn)
    (hlist : env.nodesList kube stn.w = (.nodes items, w1))
    (hready : ∀ node ∈ items, kubeNodeReady node = true) :
    (∀ fuel, n < fuel → waitNodesReady env kube timeout fuel st =
      some (.ok (), ⟨w1, stn.log ++ [Event.nodesList kube (.nodes items)]⟩)) ∧
    (∃ evs, stn.log = st.log ++ Event.timeNow (env.now st.w) :: evs ∧
      evs.countP Event.isSleep = n ∧ evs.countP Event.isPoll = n ∧
      ∀ k r, Event.nodesList k r ∈ evs → ∀ items1, r = .nodes items1 →
        ¬ ∀ node ∈ items1, kubeNodeReady node = true) ∧
    (n = 0 → ∀ fuel, waitNodesReady env kube timeout (fuel + 1) st =
      some (.ok (), ⟨w1, st.log ++
        [Event.timeNow (env.now st.w), Event.nodesList kube (.nodes items)]⟩)) := by
  obtain ⟨⟨evs, hlog, hs, hp, hnr⟩, hloop⟩ :=
    waitPasses_spec env kube timeout (env.now st.w) n _ stn hpasses
  have hret : ∀ fuel, n < fuel → waitNodesReady env kube timeout fuel st =
      some (.ok (), ⟨w1, stn.log ++ [Event.nodesList kube (.nodes items)]⟩) := by
    intro fuel hf
    obtain ⟨k, rfl⟩ : ∃ k, fuel = n + (k + 1) := ⟨fuel - n - 1, by omega⟩
    unfold waitNodesReady
    simp only []
    rw [hloop (k + 1), waitNodesReadyLoop,
      body_ready env kube timeout (env.now st.w) stn items w1 hlist hready]
  refine ⟨hret, ⟨evs, ?_, hs, hp, hnr⟩, ?_⟩
  · rw [hlog]
    simp
  · intro hn fuel
    subst hn
    simp only [waitPasses, Option.some.injEq] at hpasses
    rw [hret (fuel + 1) (by omega), ← hpasses]
    simp

/-- Witness for `waitNodesReady_returns_at_first_ready`: the third listing is
the first that is all ready, and the wait returns nil there after two sleeps,
with a timeout of one second. -/
theorem waitNodesReady_returns_at_first_ready_witness :
    waitNodesReady (scenarioEnv readyAtThirdScenario) simKube 1000000000 3 initSt =
      some (.ok (), ⟨⟨603000000, 3⟩,
        [Event.timeNow 0,
         Event.nodesList simKube (.nodes [mkNode "sanic-control-plane" "False"]),
         Event.timeNow 1000000, Event.timeSleep 300000000,
         Event.nodesList simKube (.nodes [mkNode "sanic-control-plane" "False"]),
         Event.timeNow 302000000, Event.timeSleep 300000000,
         Event.nodesList simKube (.nodes fourReady)]⟩) :=
  (waitNodesReady_returns_at_first_ready (scenarioEnv readyAtThirdScenario) simKube 1000000000 2
    initSt
    ⟨⟨602000000, 2⟩,
      [Event.timeNow 0,
       Event.nodesList simKube (.nodes [mkNode "sanic-control-plane" "False"]),
       Event.timeNow 1000000, Event.timeSleep 300000000,
       Event.nodesList simKube (.nodes [mkNode "sanic-control-plane" "False"]),
       Event.timeNow 302000000, Event.timeSleep 300000000]⟩
    fourReady ⟨603000000, 3⟩ (by decide) rfl (by decide)).1 3 (by decide)

/-- A pass of the convergence loop never looks at how many nodes the listing
holds: whatever their number, a listing whose nodes are all ready (fewer than
four, or none at all, included) makes the pass return nil at once; a listing
with a node that is not ready makes it remember "some nodes were not ready"
and, while the elapsed time does not exceed the timeout, sleep and go round
again, or return that error once it does. -/
theorem waitNodesReadyBody_ignores_node_count {W : Type} (env : Env W) (kube : Clientset)
    (timeout startTime : Int) (st : St W) (items : List Node) (w1 : W)
    (hlist : env.nodesList kube st.w = (.nodes items, w1)) :
    ((∀ node ∈ items, kubeNodeReady node = true) →
      waitNodesReadyBody env kube timeout startTime st =
        .done (.ok ()) ⟨w1, st.log ++ [Event.nodesList kube (.nodes items)]⟩) ∧
    ((∃ node ∈ items, kubeNodeReady node = false) → env.now w1 - startTime ≤ timeout →
      ∃ d, waitNodesReadyBody env kube timeout startTime st =
        .again ⟨env.sleep d w1, st.log ++ [Event.nodesList kube (.nodes items),
          Event.timeNow (env.now w1), Event.timeSleep d]⟩) ∧
    ((∃ node ∈ items, kubeNodeReady node = false) → timeout < env.now w1 - startTime →
      waitNodesReadyBody env kube timeout startTime st =
        .done (.err "some nodes were not ready")
          ⟨w1, st.log ++ [Event.nodesList kube (.nodes items), Event.timeNow (env.now w1)]⟩) := by
  have hnr : (∃ node ∈ items, kubeNodeReady node = false) →
      waitNodesReadyBody env kube timeout startTime st =
        waitDeadline env timeout startTime "some nodes were not ready"
          ⟨w1, st.log ++ [Event.nodesList kube (.nodes items)]⟩ := by
    intro hex
    have := body_not_ready env kube timeout startTime st (by
      intro items1 hi
      rw [hlist] at hi
      cases hi
      exact hex)
    rw [this, hlist]
    rfl
  refine ⟨body_ready env kube timeout startTime st items w1 hlist, ?_, ?_⟩
  · intro hex hle
    rw [hnr hex]
    unfold waitDeadline
    have h1 : ¬ env.now w1 - startTime > timeout := by omega
    by_cases h2 : timeout - (env.now w1 - startTime) ≥ pollInterval
    · exact ⟨pollInterval, by simp [h1, h2]⟩
    · exact ⟨timeout - (env.now w1 - startTime), by simp [h1, h2]⟩
  · intro hex hlt
    rw [hnr hex]
    unfold waitDeadline
    have h1 : env.now w1 - startTime > timeout := by omega
    simp [h1]

/-- Claim C10, evaluated on the code. A first poll, made 1ms into the 90s
convergence wait, that lists only three of the four nodes, all of them ready,
does not make `waitNodesReady` remember an error and poll again: it returns nil
at once. So does a first poll that lists no node at all. -/
theorem waitNodesReady_fewer_nodes_returns_nil :
    (threeReady.length < clusterNodes.length ∧
      waitNodesReady (scenarioEnv threeNodesScenario) simKube convergeTimeout 5 initSt =
        some (.ok (), ⟨⟨1000000, 1⟩,
          [Event.timeNow 0, Event.nodesList simKube (.nodes threeReady)]⟩)) ∧
    waitNodesReady (scenarioEnv noNodesScenario) simKube convergeTimeout 5 initSt =
      some (.ok (), ⟨⟨1000000, 1⟩, [Event.timeNow 0, Event.nodesList simKube (.nodes [])]⟩) := by
  refine ⟨⟨by decide, by decide⟩, by decide⟩

/-- The convergence loop against a cluster API that never reports all nodes
ready, with a clock that advances during every poll, from a state whose
remaining time is at most `n` polling intervals: with more than `n` passes of
fuel it returns the error of its last poll, after the timeout has elapsed, and
at most one poll and one sleep overshoot later when those are bounded. -/
theorem loop_never_ready {W : Type} (env : Env W) (kube : Clientset)
    (timeout startTime : Int)
    (hnever : ∀ w items, (env.nodesList kube w).1 = .nodes items →
      ∃ node ∈ items, kubeNodeReady node = false)
    (hpoll : ∀ w, env.now w < env.now (env.nodesList kube w).2)
    (hsleep : ∀ d w, 0 ≤ d → env.now w + d ≤ env.now (env.sleep d w))
    (n : Nat) :
    ∀ (st : St W) (fuel : Nat), n + 1 ≤ fuel →
      timeout - (env.now st.w - startTime) ≤ n * 300000000 →
      ∃ st1 r evs,
        waitNodesReadyLoop env kube timeout startTime fuel st = some (.err (pollError r), st1) ∧
        st1.log = st.log ++ evs ++ [Event.nodesList kube r, Event.timeNow (env.now st1.w)] ∧
        timeout < env.now st1.w - startTime ∧
        ∀ pollMax over : Int,
          (∀ w, env.now (env.nodesList kube w).2 ≤ env.now w + pollMax) →
          (∀ d w, 0 ≤ d → env.now (env.sleep d w) ≤ env.now w + d + over) →
          env.now st.w - startTime ≤ max timeout 0 + over →
          env.now st1.w - startTime ≤ max timeout 0 + over + pollMax := by
  have hP : pollInterval = 300000000 := by decide
  induction n with
  | zero =>
    intro st fuel hf h1
    obtain ⟨f, rfl⟩ : ∃ f, fuel = f + 1 := ⟨fuel - 1, by omega⟩
    have hp := hpoll st.w
    have hgt : env.now (env.nodesList kube st.w).2 - startTime > timeout := by omega
    refine ⟨⟨(env.nodesList kube st.w).2, st.log ++ [Event.nodesList kube
      (env.nodesList kube st.w).1] ++ [Event.timeNow (env.now (env.nodesList kube st.w).2)]⟩,
      (env.nodesList kube st.w).1, [], ?_, ?_, ?_, ?_⟩
    · rw [waitNodesReadyLoop, body_not_ready env kube timeout startTime st (hnever st.w)]
      unfold waitDeadline
      simp only [hgt, if_true]
    · simp
    · exact hgt
    · intro pollMax over hpm _ h2
      have := hpm st.w
      show env.now (env.nodesList kube st.w).2 - startTime ≤ _
      omega
  | succ n ih =>
    intro st fuel hf h1
    obtain ⟨f, rfl⟩ : ∃ f, fuel = f + 1 := ⟨fuel - 1, by omega⟩
    have hp := hpoll st.w
    by_cases hgt : env.now (env.nodesList kube st.w).2 - startTime > timeout
    · refine ⟨⟨(env.nodesList kube st.w).2, st.log ++ [Event.nodesList kube
        (env.nodesList kube st.w).1] ++ [Event.timeNow (env.now (env.nodesList kube st.w).2)]⟩,
        (env.nodesList kube st.w).1, [], ?_, ?_, ?_, ?_⟩
      · rw [waitNodesReadyLoop, body_not_ready env kube timeout startTime st (hnever st.w)]
        unfold waitDeadline
        simp only [hgt, if_true]
      · simp
      · exact hgt
      · intro pollMax over hpm _ h2
        have := hpm st.w
        show env.now (env.nodesList kube st.w).2 - startTime ≤ _
        omega
    · by_cases hge : timeout - (env.now (env.nodesList kube st.w).2 - startTime) ≥ pollInterval
      · have hs := hsleep pollInterval (env.nodesList kube st.w).2 (by rw [hP]; decide)
        rw [hP] at hs hge
        obtain ⟨st1, r, evs, hres, hlog, hlt, hle⟩ :=
          ih ⟨env.sleep pollInterval (env.nodesList kube st.w).2,
            st.log ++ [Event.nodesList kube (env.nodesList kube st.w).1] ++
              [Event.timeNow (env.now (env.nodesList kube st.w).2)] ++
              [Event.timeSleep pollInterval]⟩ f (by omega)
            (by
              show timeout - (env.now (env.sleep pollInterval (env.nodesList kube st.w).2)
                - startTime) ≤ _
              rw [hP]
              push_cast at h1 ⊢
              omega)
        refine ⟨st1, r, [Event.nodesList kube (env.nodesList kube st.w).1,
          Event.timeNow (env.now (env.nodesList kube st.w).2), Event.timeSleep pollInterval]
          ++ evs, ?_, ?_, hlt, ?_⟩
        · rw [waitNodesReadyLoop, body_not_ready env kube timeout startTime st (hnever st.w)]
          unfold waitDeadline
          simp only [hgt, if_false, hP, hge, if_true]
          rw [hP] at hres
          exact hres
        · rw [hlog]
          simp
        · intro pollMax over hpm hsm _
          refine hle pollMax over hpm hsm ?_
          have := hsm pollInterval (env.nodesList kube st.w).2 (by rw [hP]; decide)
          rw [hP] at this
          show env.now (env.sleep pollInterval (env.nodesList kube st.w).2) - startTime ≤ _
          rw [hP]
          omega
      · have hd : 0 ≤ timeout - (env.now (env.nodesList kube st.w).2 - startTime) := by omega
        have hs := hsleep _ (env.nodesList kube st.w).2 hd
        obtain ⟨st1, r, evs, hres, hlog, hlt, hle⟩ :=
          ih ⟨env.sleep (timeout - (env.now (env.nodesList kube st.w).2 - startTime))
              (env.nodesList kube st.w).2,
            st.log ++ [Event.nodesList kube (env.nodesList kube st.w).1] ++
              [Event.timeNow (env.now (env.nodesList kube st.w).2)] ++
              [Event.timeSleep (timeout - (env.now (env.nodesList kube st.w).2 - startTime))]⟩
            f (by omega)
            (by
              show timeout - (env.now (env.sleep (timeout -
                (env.now (env.nodesList kube st.w).2 - startTime))
                (env.nodesList kube st.w).2) - startTime) ≤ _
              omega)
        refine ⟨st1, r, [Event.nodesList kube (env.nodesList kube st.w).1,
          Event.timeNow (env.now (env.nodesList kube st.w).2),
          Event.timeSleep (timeout - (env.now (env.nodesList kube st.w).2 - startTime))]
          ++ evs, ?_, ?_, hlt, ?_⟩
        · rw [waitNodesReadyLoop, body_not_ready env kube timeout startTime st (hnever st.w)]
          unfold waitDeadline
          simp only [hgt, if_false, hge]
          exact hres
        · rw [hlog]
          simp
        · intro pollMax over hpm hsm _
          refine hle pollMax over hpm hsm ?_
          have := hsm _ (env.nodesList kube st.w).2 hd
          show env.now (env.sleep (timeout -
            (env.now (env.nodesList kube st.w).2 - startTime))
            (env.nodesList kube st.w).2) - startTime ≤ _
          omega

/-- Claim C6, as amended. Against a cluster API that never reports all nodes
ready (each poll fails to list or lists a node that is not ready), with a clock
that advances during every poll and sleeps that last at least the requested
time, `waitNodesReady` terminates: for every timeout, `timeout / 300ms + 2`
passes of fuel suffice. It returns only once more than `timeout` has elapsed
since the call started, and the error is the one remembered from its most
recent poll, whose listing and clock reading are the last two calls made. When
a poll takes at most `pollMax` and a sleep lasts at most `over` longer than
requested, the elapsed time at return is at most `max timeout 0 + over +
pollMax`, hence at most the timeout plus 300ms when the timeout is not negative
and `over + pollMax` is at most 300ms. -/
theorem waitNodesReady_never_ready {W : Type} (env : Env W) (kube : Clientset)
    (timeout : Int) (st : St W)
    (hnever : ∀ w items, (env.nodesList kube w).1 = .nodes items →
      ∃ node ∈ items, kubeNodeReady node = false)
    (hpoll : ∀ w, env.now w < env.now (env.nodesList kube w).2)
    (hsleep : ∀ d w, 0 ≤ d → env.now w + d ≤ env.now (env.sleep d w)) :
    ∀ fuel, timeout.toNat / 300000000 + 2 ≤ fuel →
      ∃ st1 r evs,
        waitNodesReady env kube timeout fuel st = some (.err (pollError r), st1) ∧
        st1.log = st.log ++ evs ++ [Event.nodesList kube r, Event.timeNow (env.now st1.w)] ∧
        timeout < env.now st1.w - env.now st.w ∧
        ∀ pollMax over : Int,
          (∀ w, env.now (env.nodesList kube w).2 ≤ env.now w + pollMax) →
          (∀ d w, 0 ≤ d → env.now (env.sleep d w) ≤ env.now w + d + over) →
          env.now st1.w - env.now st.w ≤ max timeout 0 + over + pollMax ∧
          (0 ≤ timeout → over + pollMax ≤ 300000000 →
            env.now st1.w - env.now st.w ≤ timeout + 300000000) := by
  intro fuel hfuel
  obtain ⟨st1, r, evs, hres, hlog, hlt, hle⟩ :=
    loop_never_ready env kube timeout (env.now st.w) hnever hpoll hsleep
      (timeout.toNat / 300000000 + 1)
      ⟨st.w, st.log ++ [Event.timeNow (env.now st.w)]⟩ fuel (by omega)
      (by
        show timeout - (env.now st.w - env.now st.w) ≤ _
        omega)
  refine ⟨st1, r, Event.timeNow (env.now st.w) :: evs, ?_, ?_, hlt, ?_⟩
  · unfold waitNodesReady
    exact hres
  · rw [hlog]
    simp
  · intro pollMax over hpm hsm
    have hover : 0 ≤ over := by
      have h1 := hsleep 0 st.w (le_refl 0)
      have h2 := hsm 0 st.w (le_refl 0)
      omega
    have hb := hle pollMax over hpm hsm (by
      show env.now st.w - env.now st.w ≤ _
      omega)
    exact ⟨hb, fun h0 hsum => by omega⟩

/-- Witness for `waitNodesReady_never_ready`, with timeout = 1s: polls take 1ms
and sleeps are exact; five passes of fuel give the result, which then obeys the
bound of timeout + 300ms. -/
theorem waitNodesReady_never_ready_witness :
    ∃ st1 r evs,
      waitNodesReady (scenarioEnv neverReadyScenario) simKube 1000000000 5 initSt =
        some (.err (pollError r), st1) ∧
      st1.log = initSt.log ++ evs ++
        [Event.nodesList simKube r,
         Event.timeNow ((scenarioEnv neverReadyScenario).now st1.w)] ∧
      1000000000 < (scenarioEnv neverReadyScenario).now st1.w -
        (scenarioEnv neverReadyScenario).now initSt.w ∧
      (scenarioEnv neverReadyScenario).now st1.w -
        (scenarioEnv neverReadyScenario).now initSt.w ≤ 1000000000 + 300000000 := by
  obtain ⟨st1, r, evs, h1, h2, h3, h4⟩ :=
    waitNodesReady_never_ready (scenarioEnv neverReadyScenario) simKube 1000000000 initSt
      (fun w items h => by
        simp only [scenarioEnv, neverReadyScenario, Listing.nodes.injEq] at h
        subst h
        exact ⟨_, List.mem_singleton.mpr rfl, by decide⟩)
      (fun w => by
        simp only [scenarioEnv, neverReadyScenario]
        omega)
      (fun d w hd => by
        simp only [scenarioEnv]
        omega)
      5 (by decide)
  refine ⟨st1, r, evs, h1, h2, h3, ?_⟩
  exact (h4 1000000 0
    (fun w => by
      simp only [scenarioEnv, neverReadyScenario]
      omega)
    (fun d w hd => by
      simp only [scenarioEnv]
      omega)).2 (by decide) (by decide)

/-- Claim C6 as stated fails on its time bound: against a cluster API that
never reports all nodes ready and whose listing takes 2s, `waitNodesReady` with
timeout = 1s returns the error of its only poll when 2s have elapsed, which is
more than the timeout plus one 300ms polling interval. -/
theorem waitNodesReady_never_ready_counterexample :
    (∀ k, ∃ node ∈ [mkNode "sanic-control-plane" "False"],
      slowScenario.listings k = .nodes [mkNode "sanic-control-plane" "False"] ∧
        kubeNodeReady node = false) ∧
    (∀ fuel, waitNodesReady (scenarioEnv slowScenario) simKube 1000000000 (fuel + 1) initSt =
      some (.err "some nodes were not ready", ⟨⟨2000000000, 1⟩,
        [Event.timeNow 0,
         Event.nodesList simKube (.nodes [mkNode "sanic-control-plane" "False"]),
         Event.timeNow 2000000000]⟩)) ∧
    ¬ ((2000000000 : Int) - 0 ≤ 1000000000 + 300000000) := by
  refine ⟨fun k => ⟨_, List.mem_singleton.mpr rfl, rfl, by decide⟩, fun fuel => ?_, by decide⟩
  rfl

/-! ## Properties of `EnsureCluster` -/

/-- The outcome and final world of `checkCluster` do not depend on the log it
starts from, and the calls it logs are appended to that log. -/
theorem checkCluster_log_indep {W : Type} (env : Env W) (order : List String) (kube : Clientset)
    (w : W) (l : List Event) :
    checkCluster env order kube ⟨w, l⟩ =
      ((checkCluster env order kube ⟨w, []⟩).1,
        ⟨(checkCluster env order kube ⟨w, []⟩).2.w,
          l ++ (checkCluster env order kube ⟨w, []⟩).2.log⟩) := by
  unfold checkCluster
  simp only [List.nil_append]
  split
  · simp
  · split
    · simp
    · split
      · simp
      · split
        · simp
        · split_ifs <;> simp

/-- A `checkCluster` that returns nil has made exactly the container listing
and the node listing. -/
theorem checkCluster_ok_log {W : Type} (env : Env W) (order : List String) (kube : Clientset)
    (st : St W) (h : (checkCluster env order kube st).1 = .ok ()) :
    (checkCluster env order kube st).2 =
      ⟨(env.nodesList kube (env.containerList true kindClusterLabel st.w).2).2,
        st.log ++ [Event.containerList true kindClusterLabel, Event.nodesList kube
          (env.nodesList kube (env.containerList true kindClusterLabel st.w).2).1]⟩ := by
  unfold checkCluster at h ⊢
  simp only at h ⊢
  split at h
  · cases h
  · split at h
    · cases h
    · split at h
      · cases h
      · split at h
        · cases h
        · split_ifs at h
          simp [*]

/-- Every call `checkCluster` logs is a container listing or a node listing. -/
theorem checkCluster_log {W : Type} (env : Env W) (order : List String) (kube : Clientset)
    (st : St W) :
    ∃ evs, (checkCluster env order kube st).2.log = st.log ++ evs ∧
      ∀ ev ∈ evs, ev.isBootstrapOrWait = false ∧ ev.isMutation = false := by
  unfold checkCluster
  simp only
  split
  · exact ⟨[Event.containerList true kindClusterLabel], rfl, by simp [Event.isBootstrapOrWait,
      Event.isMutation]⟩
  · split
    · exact ⟨[Event.containerList true kindClusterLabel], rfl, by
        simp [Event.isBootstrapOrWait, Event.isMutation]⟩
    · split
      · exact ⟨[Event.containerList true kindClusterLabel], rfl, by
          simp [Event.isBootstrapOrWait, Event.isMutation]⟩
      · have hev : ∀ ev ∈ [Event.containerList true kindClusterLabel, Event.nodesList kube
            (env.nodesList kube (env.containerList true kindClusterLabel st.w).2).1],
            ev.isBootstrapOrWait = false ∧ ev.isMutation = false := by
          simp [Event.isBootstrapOrWait, Event.isMutation]
        split
        · exact ⟨_, by simp, hev⟩
        · split_ifs
          · exact ⟨_, by simp, hev⟩
          · exact ⟨_, by simp, hev⟩
          · exact ⟨_, by simp, hev⟩

/-- Every call `inspectCluster` logs is a configuration load, a client
construction, a container listing or a node listing. -/
theorem inspectCluster_log {W : Type} (env : Env W) (order : List String) (st : St W) :
    ∃ evs, (inspectCluster env order st).2.2.log = st.log ++ evs ∧
      ∀ ev ∈ evs, ev.isBootstrapOrWait = false ∧ ev.isMutation = false := by
  unfold inspectCluster
  simp only
  split
  · exact ⟨[Event.buildConfigFromFlags "" env.kubeConfigPath], rfl, by
      simp [Event.isBootstrapOrWait, Event.isMutation]⟩
  · split
    · exact ⟨[Event.buildConfigFromFlags "" env.kubeConfigPath,
        Event.newForConfig (env.buildConfigFromFlags "" env.kubeConfigPath st.w).1.1], by simp,
        by simp [Event.isBootstrapOrWait, Event.isMutation]⟩
    · exact ⟨[Event.buildConfigFromFlags "" env.kubeConfigPath,
        Event.newForConfig (env.buildConfigFromFlags "" env.kubeConfigPath st.w).1.1], by simp,
        by simp [Event.isBootstrapOrWait, Event.isMutation]⟩
    · rename_i kube _
      obtain ⟨evs, hlog, hev⟩ := checkCluster_log env order kube
        ⟨(env.newForConfig (env.buildConfigFromFlags "" env.kubeConfigPath st.w).1.1
            (env.buildConfigFromFlags "" env.kubeConfigPath st.w).2).2,
          st.log ++ [Event.buildConfigFromFlags "" env.kubeConfigPath] ++
            [Event.newForConfig (env.buildConfigFromFlags "" env.kubeConfigPath st.w).1.1]⟩
      refine ⟨[Event.buildConfigFromFlags "" env.kubeConfigPath,
        Event.newForConfig (env.buildConfigFromFlags "" env.kubeConfigPath st.w).1.1] ++ evs,
        ?_, ?_⟩
      · rw [hlog]
        simp
      · intro ev hmem
        rcases List.mem_append.mp hmem with hm | hm
        · simp only [List.mem_cons, List.mem_singleton, List.not_mem_nil, or_false] at hm
          rcases hm with rfl | rfl <;> simp [Event.isBootstrapOrWait, Event.isMutation]
        · exact hev ev hm

/-- Every call the removal loop logs is a container removal. -/
theorem removeContainers_log {W : Type} (env : Env W) (cs : List Container) (st : St W) :
    ∃ evs, (removeContainers env cs st).2.log = st.log ++ evs ∧
      ∀ ev ∈ evs, ev.isBootstrapOrWait = false := by
  induction cs generalizing st with
  | nil => exact ⟨[], by simp [removeContainers], by simp⟩
  | cons c cs ih =>
    rw [removeContainers]
    split
    · exact ⟨[Event.containerRemove c.ID true], rfl, by simp [Event.isBootstrapOrWait]⟩
    · obtain ⟨evs, hlog, hev⟩ := ih ⟨(env.containerRemove c.ID true st.w).2,
        st.log ++ [Event.containerRemove c.ID true]⟩
      refine ⟨Event.containerRemove c.ID true :: evs, ?_, ?_⟩
      · rw [hlog]
        simp
      · intro ev hmem
        rcases List.mem_cons.mp hmem with rfl | hm
        · rfl
        · exact hev ev hm

/-- Every call `deleteClusterContainers` logs is a container listing or a
container removal. -/
theorem deleteClusterContainers_log {W : Type} (env : Env W) (st : St W) :
    ∃ evs, (deleteClusterContainers env st).2.log = st.log ++ evs ∧
      ∀ ev ∈ evs, ev.isBootstrapOrWait = false := by
  unfold deleteClusterContainers
  simp only
  split
  · exact ⟨[Event.containerList true kindClusterLabel], rfl, by simp [Event.isBootstrapOrWait]⟩
  · rename_i cs _
    obtain ⟨evs, hlog, hev⟩ := removeContainers_log env cs
      ⟨(env.containerList true kindClusterLabel st.w).2,
        st.log ++ [Event.containerList true kindClusterLabel]⟩
    refine ⟨Event.containerList true kindClusterLabel :: evs, ?_, ?_⟩
    · rw [hlog]
      simp
    · intro ev hmem
      rcases List.mem_cons.mp hmem with rfl | hm
      · rfl
      · exact hev ev hm

/-- The healthy path of `EnsureCluster` from any log: when the Docker client is
built, the configuration loads, the cluster client is built and `checkCluster`
returns nil, the result is nil and the calls made are exactly those five. -/
theorem ensure_healthy {W : Type} (env : Env W) (order : List String) (fuel : Nat) (w : W)
    (l : List Event) (w1 : W) (cfg : Option RestConfig) (w2 : W) (kube : Clientset) (w3 : W)
    (hdocker : env.newClientWithOpts "1.24" w = (none, w1))
    (hcfg : env.buildConfigFromFlags "" env.kubeConfigPath w1 = ((cfg, none), w2))
    (hkube : env.newForConfig cfg w2 = (.ok kube, w3))
    (hcheck : (checkCluster env order kube ⟨w3, []⟩).1 = .ok ()) :
    EnsureCluster env order fuel ⟨w, l⟩ =
      some (.ok (), ⟨(env.nodesList kube (env.containerList true kindClusterLabel w3).2).2,
        l ++ [Event.dockerNewClient "1.24", Event.buildConfigFromFlags "" env.kubeConfigPath,
          Event.newForConfig cfg, Event.containerList true kindClusterLabel,
          Event.nodesList kube
            (env.nodesList kube (env.containerList true kindClusterLabel w3).2).1]⟩) := by
  have hr := checkCluster_ok_log env order kube ⟨w3, []⟩ hcheck
  have hins : inspectCluster env order ⟨w1, l ++ [Event.dockerNewClient "1.24"]⟩ =
      (cfg, .ok (), ⟨(env.nodesList kube (env.containerList true kindClusterLabel w3).2).2,
        l ++ [Event.dockerNewClient "1.24", Event.buildConfigFromFlags "" env.kubeConfigPath,
          Event.newForConfig cfg, Event.containerList true kindClusterLabel,
          Event.nodesList kube
            (env.nodesList kube (env.containerList true kindClusterLabel w3).2).1]⟩) := by
    unfold inspectCluster
    simp only [hcfg, hkube]
    rw [checkCluster_log_indep, hcheck, hr]
    simp
  unfold EnsureCluster
  simp only [hdocker, hins]

/-- Claim C4. When the Docker client is built, the configuration loads, the
cluster client is built and `checkCluster` returns nil, `EnsureCluster` returns
nil for every fuel, and the calls it has made are exactly those three, the
container listing and the node listing: no removal, no creation, no `kubectl`,
no clock reading or sleep. If those five read calls leave the world as it is,
the world after the call is the world before it and calling again gives nil
after the same five calls. -/
theorem EnsureCluster_healthy_noop {W : Type} (env : Env W) (order : List String) (fuel : Nat)
    (st : St W) (w1 : W) (cfg : Option RestConfig) (w2 : W) (kube : Clientset) (w3 : W)
    (hdocker : env.newClientWithOpts "1.24" st.w = (none, w1))
    (hcfg : env.buildConfigFromFlags "" env.kubeConfigPath w1 = ((cfg, none), w2))
    (hkube : env.newForConfig cfg w2 = (.ok kube, w3))
    (hcheck : (checkCluster env order kube ⟨w3, []⟩).1 = .ok ()) :
    ∃ st1 r,
      EnsureCluster env order fuel st = some (.ok (), st1) ∧
      st1.log = st.log ++
        [Event.dockerNewClient "1.24", Event.buildConfigFromFlags "" env.kubeConfigPath,
          Event.newForConfig cfg, Event.containerList true "io.k8s.sigs.kind.cluster",
          Event.nodesList kube r] ∧
      (∀ ev ∈ st1.log.drop st.log.length,
        ev.isMutation = false ∧ ev.isBootstrapOrWait = false) ∧
      (w1 = st.w → w2 = st.w → w3 = st.w →
        (env.containerList true kindClusterLabel st.w).2 = st.w →
        (env.nodesList kube st.w).2 = st.w →
        st1.w = st.w ∧
        EnsureCluster env order fuel st1 = some (.ok (), ⟨st.w, st1.log ++
          [Event.dockerNewClient "1.24", Event.buildConfigFromFlags "" env.kubeConfigPath,
            Event.newForConfig cfg, Event.containerList true "io.k8s.sigs.kind.cluster",
            Event.nodesList kube r]⟩)) := by
  have hr := ensure_healthy env order fuel st.w st.log w1 cfg w2 kube w3 hdocker hcfg
    hkube hcheck
  refine ⟨_, _, hr, rfl, ?_, ?_⟩
  · simp [Event.isMutation, Event.isBootstrapOrWait, kindClusterLabel]
  · intro h1 h2 h3 h4 h5
    subst h1
    subst h2
    subst h3
    have hw : (env.nodesList kube (env.containerList true kindClusterLabel st.w).2).2 = st.w := by
      rw [h4, h5]
    refine ⟨hw, ?_⟩
    have hr1 := ensure_healthy env order fuel st.w
      (st.log ++ [Event.dockerNewClient "1.24", Event.buildConfigFromFlags "" env.kubeConfigPath,
        Event.newForConfig cfg, Event.containerList true kindClusterLabel,
        Event.nodesList kube
          (env.nodesList kube (env.containerList true kindClusterLabel st.w).2).1])
      st.w cfg st.w kube st.w hdocker hcfg hkube hcheck
    rw [hw] at hr1 ⊢
    exact hr1

/-- Witness for `EnsureCluster_healthy_noop`: on a healthy scripted cluster the
call returns nil after the five read calls. -/
theorem EnsureCluster_healthy_noop_witness :
    ∃ st1 r,
      EnsureCluster (scenarioEnv healthyScenario) literalOrder 0 initSt = some (.ok (), st1) ∧
      st1.log = initSt.log ++
        [Event.dockerNewClient "1.24",
          Event.buildConfigFromFlags "" (scenarioEnv healthyScenario).kubeConfigPath,
          Event.newForConfig (some simConfig),
          Event.containerList true "io.k8s.sigs.kind.cluster",
          Event.nodesList simKube r] ∧
      ∀ ev ∈ st1.log.drop initSt.log.length,
        ev.isMutation = false ∧ ev.isBootstrapOrWait = false := by
  obtain ⟨st1, r, h1, h2, h3, _⟩ := EnsureCluster_healthy_noop (scenarioEnv healthyScenario)
    literalOrder 0 initSt ⟨0, 0⟩ (some simConfig) ⟨0, 0⟩ simKube ⟨0, 0⟩ rfl rfl rfl (by decide)
  exact ⟨st1, r, h1, h2, h3⟩

/-- Claim C5. When the Docker client is built, inspection ends with a non-nil
`clusterError`, reaping succeeds and `kindContext.Create` returns the error
`e`, `EnsureCluster` returns exactly `e`, for every fuel, the creation being
the last call it makes: among the calls made there is no `kubectl` call
(`startIngressController`) and no clock reading or sleep (`waitNodesReady`).
The cluster configuration passed to `Create` has the node list of one
control-plane followed by three workers. -/
theorem EnsureCluster_create_error {W : Type} (env : Env W) (order : List String) (fuel : Nat)
    (st : St W) (w1 : W) (kubeConfig : Option RestConfig) (clusterError : String)
    (st2 st3 : St W) (e : String) (w4 : W)
    (hdocker : env.newClientWithOpts "1.24" st.w = (none, w1))
    (hinspect : inspectCluster env order ⟨w1, st.log ++ [Event.dockerNewClient "1.24"]⟩ =
      (kubeConfig, .err clusterError, st2))
    (hreap : deleteClusterContainers env ⟨st2.w, st2.log ++ creatingMessages clusterError⟩ =
      (.ok (), st3))
    (hcreate : env.kindCreate (kindConfig env) false 0 st3.w = (some e, w4)) :
    EnsureCluster env order fuel st =
      some (.err e, ⟨w4, st3.log ++ [Event.kindCreate (kindConfig env) false 0]⟩) ∧
    (kindConfig env).Nodes = [⟨"control-plane"⟩, ⟨"worker"⟩, ⟨"worker"⟩, ⟨"worker"⟩] ∧
    ∃ evs, st3.log ++ [Event.kindCreate (kindConfig env) false 0] = st.log ++ evs ∧
      ∀ ev ∈ evs, ev.isBootstrapOrWait = false := by
  refine ⟨?_, rfl, ?_⟩
  · unfold EnsureCluster
    simp only [hdocker, hinspect]
    unfold recreateCluster
    simp only [hreap, hcreate]
  · obtain ⟨evs1, hl1, hev1⟩ := inspectCluster_log env order
      ⟨w1, st.log ++ [Event.dockerNewClient "1.24"]⟩
    obtain ⟨evs2, hl2, hev2⟩ := deleteClusterContainers_log env
      ⟨st2.w, st2.log ++ creatingMessages clusterError⟩
    rw [hinspect] at hl1
    rw [hreap] at hl2
    simp only at hl1 hl2
    refine ⟨[Event.dockerNewClient "1.24"] ++ evs1 ++ creatingMessages clusterError ++ evs2 ++
      [Event.kindCreate (kindConfig env) false 0], ?_, ?_⟩
    · rw [hl2, hl1]
      simp
    · intro ev hmem
      simp only [List.mem_append, List.mem_singleton, creatingMessages, List.mem_cons,
        List.not_mem_nil, or_false] at hmem
      rcases hmem with (((rfl | h) | (rfl | rfl)) | h) | rfl
      · rfl
      · exact (hev1 ev h).1
      · rfl
      · rfl
      · exact hev2 ev h
      · rfl

/-- Witness for `EnsureCluster_create_error`: a degraded scripted cluster whose
recreation fails in `kind`. -/
theorem EnsureCluster_create_error_witness :
    EnsureCluster (scenarioEnv createFailsScenario) literalOrder 0 initSt =
      some (.err "failed to create cluster: docker run error", ⟨⟨0, 0⟩,
        [Event.dockerNewClient "1.24",
         Event.buildConfigFromFlags "" "/home/dev/.kube/kind-config-sanic",
         Event.newForConfig (some simConfig),
         Event.containerList true "io.k8s.sigs.kind.cluster"] ++
        creatingMessages "at least one required container isn't running: /sanic-worker2" ++
        [Event.containerList true "io.k8s.sigs.kind.cluster",
         Event.containerRemove "id-/sanic-control-plane" true,
         Event.containerRemove "id-/sanic-worker" true,
         Event.containerRemove "id-/sanic-worker2" true,
         Event.containerRemove "id-/sanic-worker3" true,
         Event.kindCreate ⟨clusterNodes, "defaults"⟩ false 0]⟩) :=
  (EnsureCluster_create_error (scenarioEnv createFailsScenario) literalOrder 0 initSt ⟨0, 0⟩
    (some simConfig) "at least one required container isn't running: /sanic-worker2"
    ⟨⟨0, 0⟩, [Event.dockerNewClient "1.24",
      Event.buildConfigFromFlags "" "/home/dev/.kube/kind-config-sanic",
      Event.newForConfig (some simConfig),
      Event.containerList true "io.k8s.sigs.kind.cluster"]⟩
    ⟨⟨0, 0⟩, [Event.dockerNewClient "1.24",
      Event.buildConfigFromFlags "" "/home/dev/.kube/kind-config-sanic",
      Event.newForConfig (some simConfig),
      Event.containerList true "io.k8s.sigs.kind.cluster"] ++
      creatingMessages "at least one required container isn't running: /sanic-worker2" ++
      [Event.containerList true "io.k8s.sigs.kind.cluster",
       Event.containerRemove "id-/sanic-control-plane" true,
       Event.containerRemove "id-/sanic-worker" true,
       Event.containerRemove "id-/sanic-worker2" true,
       Event.containerRemove "id-/sanic-worker3" true]⟩
    "failed to create cluster: docker run error" ⟨0, 0⟩ rfl (by decide) (by decide) rfl).1

/-- Claim C3, evaluated on the code. When the kind configuration does not exist
at the start (`BuildConfigFromFlags` returns a nil configuration with its
error), reaping, creation and the network bootstrap succeed, `EnsureCluster`
builds the cluster client at line 301 from the nil pointer it loaded at line
252, never loading the configuration again; when `kubernetes.NewForConfig`
panics on the nil pointer, so does `EnsureCluster`, before any convergence
wait. -/
theorem EnsureCluster_fresh_install_stale_config {W : Type} (env : Env W)
    (order : List String) (fuel : Nat) (st : St W) (w1 : W) (e0 : String) (w2 : W)
    (st3 : St W) (w4 : W) (st5 : St W) (msg : String) (w6 : W)
    (hdocker : env.newClientWithOpts "1.24" st.w = (none, w1))
    (hcfg : env.buildConfigFromFlags "" env.kubeConfigPath w1 = ((none, some e0), w2))
    (hreap : deleteClusterContainers env
      ⟨w2, st.log ++ [Event.dockerNewClient "1.24",
        Event.buildConfigFromFlags "" env.kubeConfigPath] ++
        creatingMessages "kind config did not exist, cluster has not been initialized"⟩ =
      (.ok (), st3))
    (hcreate : env.kindCreate (kindConfig env) false 0 st3.w = (none, w4))
    (hingress : startIngressController env
      ⟨w4, st3.log ++ [Event.kindCreate (kindConfig env) false 0]⟩ = (.ok (), st5))
    (hnil : env.newForConfig none st5.w = (.panic msg, w6)) :
    EnsureCluster env order fuel st =
      some (.panic msg, ⟨w6, st5.log ++ [Event.newForConfig none]⟩) := by
  have hins : inspectCluster env order ⟨w1, st.log ++ [Event.dockerNewClient "1.24"]⟩ =
      (none, .err "kind config did not exist, cluster has not been initialized",
        ⟨w2, st.log ++ [Event.dockerNewClient "1.24",
          Event.buildConfigFromFlags "" env.kubeConfigPath]⟩) := by
    unfold inspectCluster
    simp only [hcfg]
    simp
  unfold EnsureCluster
  simp only [hdocker, hins]
  unfold recreateCluster
  simp only [hreap, hcreate, hingress, hnil]

/-- Witness for `EnsureCluster_fresh_install_stale_config`, the fresh install
of claim C3: no configuration file, no labeled container, every collaborator
succeeds. The calls made are the reap (no removal), the creation with one
control-plane and three workers, `kubectl apply -f -` with the ingress manifest
on standard input, and the client construction from the nil configuration,
where the run panics instead of waiting for convergence and returning nil. -/
theorem EnsureCluster_fresh_install_stale_config_witness :
    EnsureCluster (scenarioEnv freshInstallScenario) literalOrder 400 initSt =
      some (.panic "invalid memory address or nil pointer dereference", ⟨⟨0, 0⟩,
        [Event.dockerNewClient "1.24",
         Event.buildConfigFromFlags "" "/home/dev/.kube/kind-config-sanic"] ++
        creatingMessages "kind config did not exist, cluster has not been initialized" ++
        [Event.containerList true "io.k8s.sigs.kind.cluster",
         Event.kindCreate ⟨[⟨"control-plane"⟩, ⟨"worker"⟩, ⟨"worker"⟩, ⟨"worker"⟩],
           "defaults"⟩ false 0,
         Event.getKubectlExecutablePath,
         Event.cmdStart simKubectl,
         Event.cmdWait simKubectl,
         Event.newForConfig none]⟩) :=
  EnsureCluster_fresh_install_stale_config (scenarioEnv freshInstallScenario) literalOrder 400
    initSt ⟨0, 0⟩ "stat /home/dev/.kube/kind-config-sanic: no such file or directory" ⟨0, 0⟩
    ⟨⟨0, 0⟩, [Event.dockerNewClient "1.24",
      Event.buildConfigFromFlags "" "/home/dev/.kube/kind-config-sanic"] ++
      creatingMessages "kind config did not exist, cluster has not been initialized" ++
      [Event.containerList true "io.k8s.sigs.kind.cluster"]⟩
    ⟨0, 0⟩
    ⟨⟨0, 0⟩, [Event.dockerNewClient "1.24",
      Event.buildConfigFromFlags "" "/home/dev/.kube/kind-config-sanic"] ++
      creatingMessages "kind config did not exist, cluster has not been initialized" ++
      [Event.containerList true "io.k8s.sigs.kind.cluster",
       Event.kindCreate ⟨[⟨"control-plane"⟩, ⟨"worker"⟩, ⟨"worker"⟩, ⟨"worker"⟩],
         "defaults"⟩ false 0,
       Event.getKubectlExecutablePath,
       Event.cmdStart simKubectl,
       Event.cmdWait simKubectl]⟩
    "invalid memory address or nil pointer dereference" ⟨0, 0⟩
    rfl (by decide) rfl rfl rfl rfl

end Sanic
